import Mathlib

/-! # Genesis generator (`create-genesis.go`): a shallow embedding

The generator builds the genesis document of a proof-of-stake-authority chain
from a network profile.  This development embeds its functions in Lean and
proves properties of them.

Conventions of the embedding:

* Go byte slices are lists of `Fin 256`; Go strings are Lean strings and every
  byte-level operation (`len`, `s[i]`, `s[2:]`) goes through `goBytes`, their
  UTF-8 encoding.
* `*big.Int` is `Option Int` where the pointer can be nil, `Int` otherwise.
* A Go map is a list of key/value pairs with distinct keys; the order of the
  list is the order in which `range` happens to visit the map.
* A function with effects returns a `Run`: the events it caused, in order, and
  either its result or the way it failed (a returned `error` or a `panic`).
* The execution engine, the ABI encoder for arbitrary types, the JSON codecs,
  the file system and the clock are collaborators outside the repository; they
  are fields of `Env`.
-/

namespace CreateGenesis

/-! ## Bytes and strings -/

abbrev Byte := Fin 256

abbrev Bytes := List Byte

/-- Conversion of a number to a byte, keeping the low eight bits. -/
def byteOfNat (n : Nat) : Byte := ⟨n % 256, Nat.mod_lt n (by decide)⟩

/-- UTF-8 encoding of one code point. -/
def utf8EncodeChar (c : Char) : Bytes :=
  let v := c.toNat
  if v < 0x80 then [byteOfNat v]
  else if v < 0x800 then [byteOfNat (0xC0 + v / 64), byteOfNat (0x80 + v % 64)]
  else if v < 0x10000 then
    [byteOfNat (0xE0 + v / 4096), byteOfNat (0x80 + v / 64 % 64), byteOfNat (0x80 + v % 64)]
  else
    [byteOfNat (0xF0 + v / 262144), byteOfNat (0x80 + v / 4096 % 64),
     byteOfNat (0x80 + v / 64 % 64), byteOfNat (0x80 + v % 64)]

/-- The bytes of a Go string: `[]byte(s)`. -/
def goBytes (s : String) : Bytes := s.toList.flatMap utf8EncodeChar

/-- A Go string made of ASCII bytes: `string(buf)`. -/
def asciiString (buf : Bytes) : String := String.mk (buf.map fun b => Char.ofNat b.val)

/-- Lower-case hexadecimal digit of a nibble, as `encoding/hex` writes it. -/
def hexDigit (n : Nat) : Byte := if n < 10 then byteOfNat (48 + n) else byteOfNat (87 + n)

/-- Lower-case hexadecimal text of a byte string: `hex.Encode`. -/
def hexEncode (b : Bytes) : Bytes := b.flatMap fun x => [hexDigit (x.val / 16), hexDigit (x.val % 16)]

/-- The text `0x` followed by the lower-case hex digits: `hexutil.Encode`. -/
def hexutilEncode (b : Bytes) : String := asciiString ([48, 120] ++ hexEncode b)

/-! ## Keccak-256 -/

namespace Keccak

def mask64 : Nat := 2 ^ 64

def rotl64 (v n : Nat) : Nat := ((v <<< n) ||| (v >>> (64 - n))) % mask64

def roundConstants : List Nat :=
  [0x0000000000000001, 0x0000000000008082, 0x800000000000808A, 0x8000000080008000,
   0x000000000000808B, 0x0000000080000001, 0x8000000080008081, 0x8000000000008009,
   0x000000000000008A, 0x0000000000000088, 0x0000000080008009, 0x000000008000000A,
   0x000000008000808B, 0x800000000000008B, 0x8000000000008089, 0x8000000000008003,
   0x8000000000008002, 0x8000000000000080, 0x000000000000800A, 0x800000008000000A,
   0x8000000080008081, 0x8000000000008080, 0x0000000080000001, 0x8000000080008008]

/-- Rotation offsets, indexed by `x + 5 * y`. -/
def rotationOffsets : List Nat :=
  [0, 1, 62, 28, 27, 36, 44, 6, 55, 20, 3, 10, 43, 25, 39, 41, 45, 15, 21, 8, 18, 2, 61, 56, 14]

def lane (a : List Nat) (x y : Nat) : Nat := a.getD (x % 5 + 5 * (y % 5)) 0

def theta (a : List Nat) : List Nat :=
  let c := (List.range 5).map fun x =>
    lane a x 0 ^^^ lane a x 1 ^^^ lane a x 2 ^^^ lane a x 3 ^^^ lane a x 4
  let d := (List.range 5).map fun x => c.getD ((x + 4) % 5) 0 ^^^ rotl64 (c.getD ((x + 1) % 5) 0) 1
  (List.range 25).map fun i => a.getD i 0 ^^^ d.getD (i % 5) 0

/-- The steps rho and pi: lane `(x, y)` moves to `(y, 2x + 3y)`, rotated. -/
def rhoPi (a : List Nat) : List Nat :=
  (List.range 25).map fun j =>
    let x' := j % 5
    let y' := j / 5
    -- the source lane (x, y) with y = x' and 2x + 3y = y' (mod 5), i.e. x = x' + 3y'
    let x := (x' + 3 * y') % 5
    let y := x'
    rotl64 (lane a x y) (rotationOffsets.getD (x + 5 * y) 0)

def chi (b : List Nat) : List Nat :=
  (List.range 25).map fun i =>
    let x := i % 5
    let y := i / 5
    lane b x y ^^^ (((mask64 - 1) ^^^ lane b (x + 1) y) &&& lane b (x + 2) y)

def iota (rc : Nat) (a : List Nat) : List Nat :=
  match a with
  | [] => []
  | a0 :: rest => (a0 ^^^ rc) :: rest

def round (a : List Nat) (rc : Nat) : List Nat := iota rc (chi (rhoPi (theta a)))

def permute (a : List Nat) : List Nat := roundConstants.foldl round a

/-- Little-endian value of up to eight bytes. -/
def laneOfBytes (b : Bytes) : Nat := b.foldr (fun x acc => x.val + 256 * acc) 0

def bytesOfLane (v : Nat) : Bytes := (List.range 8).map fun i => byteOfNat (v / 256 ^ i)

/-- The rate of Keccak-256 in bytes. -/
def rate : Nat := 136

/-- Legacy Keccak padding (`0x01 … 0x80`) up to a multiple of the rate. -/
def pad (msg : Bytes) : Bytes :=
  let k := rate - msg.length % rate
  if k = 1 then msg ++ [0x81]
  else msg ++ [0x01] ++ List.replicate (k - 2) 0 ++ [0x80]

def absorbBlock (a : List Nat) (block : Bytes) : List Nat :=
  permute ((List.range 25).map fun i =>
    if i < 17 then a.getD i 0 ^^^ laneOfBytes ((block.drop (8 * i)).take 8) else a.getD i 0)

def absorb (fuel : Nat) (a : List Nat) (data : Bytes) : List Nat :=
  match fuel with
  | 0 => a
  | fuel + 1 =>
    if data.isEmpty then a else absorb fuel (absorbBlock a (data.take rate)) (data.drop rate)

end Keccak

/-- The Keccak-256 hash: `crypto.Keccak256`. -/
def Keccak256 (msg : Bytes) : Bytes :=
  let padded := Keccak.pad msg
  let final := Keccak.absorb (padded.length / Keccak.rate + 1) (List.replicate 25 0) padded
  (final.take 4).flatMap Keccak.bytesOfLane

/-! ## Hexadecimal decoding (`encoding/hex`, `hexutil`, `math/big`) -/

/-- Value of a hexadecimal digit, `0-9a-fA-F`: `decodeNibble`, `fromHexChar`. -/
def decodeNibble (c : Byte) : Option Nat :=
  if 48 ≤ c.val ∧ c.val ≤ 57 then some (c.val - 48)
  else if 65 ≤ c.val ∧ c.val ≤ 70 then some (c.val - 65 + 10)
  else if 97 ≤ c.val ∧ c.val ≤ 102 then some (c.val - 97 + 10)
  else none

/-- Base-16 value of a digit string read left to right, `none` at a byte that
is no hexadecimal digit. -/
def hexValue (acc : Nat) : Bytes → Option Nat
  | [] => some acc
  | c :: rest =>
    match decodeNibble c with
    | none => none
    | some d => hexValue (16 * acc + d) rest

/-- The test for a leading `0x` or `0X`: `has0xPrefix`. -/
def has0xPrefix (input : Bytes) : Bool :=
  decide (2 ≤ input.length) && (input.getD 0 0 == 48) && (input.getD 1 0 == 120 || input.getD 1 0 == 88)

/-- The prefix and leading-zero checks of a hex quantity: `hexutil.checkNumber`. -/
def checkNumber (input : Bytes) : Except String Bytes :=
  if input.length = 0 then .error "empty hex string"
  else if !has0xPrefix input then .error "hex string without 0x prefix"
  else
    let raw := input.drop 2
    if raw.length = 0 then .error "hex string \"0x\""
    else if 1 < raw.length ∧ raw.getD 0 0 = 48 then .error "hex number with leading zero digits"
    else .ok raw

/-- Decoding of a `0x`-prefixed quantity of at most 256 bits: `hexutil.DecodeBig`. -/
def DecodeBig (input : String) : Except String Int :=
  match checkNumber (goBytes input) with
  | .error e => .error e
  | .ok raw =>
    if 64 < raw.length then .error "hex number > 256 bits"
    else
      match hexValue 0 raw with
      | none => .error "invalid hex string"
      | some n => .ok (n : Int)

/-- Decoding of byte pairs by `hex.Decode`, with its three outcomes. -/
def hexDecodePairs : Bytes → Except String Bytes
  | [] => .ok []
  | [c] =>
    match decodeNibble c with
    | none => .error "invalid hex string"
    | some _ => .error "hex string of odd length"
  | p :: q :: rest =>
    match decodeNibble p, decodeNibble q with
    | some a, some b =>
      match hexDecodePairs rest with
      | .error e => .error e
      | .ok bs => .ok (byteOfNat (16 * a + b) :: bs)
    | _, _ => .error "invalid hex string"

/-- Decoding of a `0x`-prefixed byte string: `hexutil.Decode`. -/
def hexutilDecode (input : String) : Except String Bytes :=
  let b := goBytes input
  if b.length = 0 then .error "empty hex string"
  else if !has0xPrefix b then .error "hex string without 0x prefix"
  else hexDecodePairs (b.drop 2)

/-- Parsing of a base-16 number with an optional sign, digits `0-9a-zA-Z`
below the base, and nothing after them: `new(big.Int).SetString(s, 16)`. -/
def SetString16 (s : Bytes) : Option Int :=
  match s with
  | [] => none
  | c :: rest =>
    if c.val = 45 then
      match rest with
      | [] => none
      | _ => (hexValue 0 rest).map fun n => -(n : Int)
    else if c.val = 43 then
      match rest with
      | [] => none
      | _ => (hexValue 0 rest).map fun n => (n : Int)
    else (hexValue 0 (c :: rest)).map fun n => (n : Int)

/-- Go slicing `s[n:]`: a run-time panic when `n` exceeds the length. -/
def sliceFrom (s : Bytes) (n : Nat) : Except String Bytes :=
  if n ≤ s.length then .ok (s.drop n)
  else .error s!"runtime error: slice bounds out of range [{n}:{s.length}]"

/-! ## Addresses and hashes -/

abbrev Address := Fin (2 ^ 160)

abbrev Hash := Fin (2 ^ 256)

/-- The address with the given number, reduced to 160 bits. -/
def addressOfNat (n : Nat) : Address := ⟨n % 2 ^ 160, Nat.mod_lt n (Nat.two_pow_pos 160)⟩

/-- Big-endian value of a byte string. -/
def bigEndian (b : Bytes) : Nat := b.foldl (fun acc x => 256 * acc + x.val) 0

/-- The twenty bytes of an address: `Address.Bytes`. -/
def Address.bytes (a : Address) : Bytes := (List.range 20).map fun i => byteOfNat (a.val / 256 ^ (19 - i))

/-- Decoding that stops at the first pair that is not hexadecimal:
`common.Hex2Bytes`, which drops the error of `hex.DecodeString`. -/
def Hex2Bytes : Bytes → Bytes
  | p :: q :: rest =>
    match decodeNibble p, decodeNibble q with
    | some a, some b => byteOfNat (16 * a + b) :: Hex2Bytes rest
    | _, _ => []
  | _ => []

/-- The bytes a hex string stands for, with an optional prefix and an odd
digit count allowed: `common.FromHex`. -/
def FromHex (s : String) : Bytes :=
  let b := goBytes s
  let b := if has0xPrefix b then b.drop 2 else b
  let b := if b.length % 2 = 1 then (48 : Byte) :: b else b
  Hex2Bytes b

/-- The address a hex string stands for (its last twenty bytes, right
aligned): `common.HexToAddress`. -/
def HexToAddress (s : String) : Address := addressOfNat (bigEndian (FromHex s))

/-- The checksummed text of an address (EIP-55): `Address.checksumHex`. -/
def Address.checksumHex (a : Address) : Bytes :=
  let digits := hexEncode a.bytes
  let hash := Keccak256 digits
  let cased := digits.enum.map fun (i, c) =>
    let hashByte := (hash.getD (i / 2) 0).val
    let nib := if i % 2 = 0 then hashByte / 16 else hashByte % 16
    if 57 < c.val ∧ 7 < nib then byteOfNat (c.val - 32) else c
  [48, 120] ++ cased

/-- The hex form of an address: `Address.Hex`. -/
def Address.Hex (a : Address) : String := asciiString a.checksumHex

/-! ## The genesis document (`core.Genesis`) and the profile (`genesisConfig`) -/

abbrev StateStorage := List (Hash × Hash)

/-- One entry of the allocation map: `core.GenesisAccount`. -/
structure GenesisAccount where
  Code : Bytes := []
  Storage : StateStorage := []
  Balance : Option Int := none
  Nonce : Nat := 0
  deriving DecidableEq, Repr

/-- The allocation map, `core.GenesisAlloc`: pairs with distinct addresses. -/
abbrev GenesisAlloc := List (Address × GenesisAccount)

/-- A map read `m[k]`, with its presence flag. -/
def mapGet {κ β : Type} [DecidableEq κ] (m : List (κ × β)) (k : κ) : Option β :=
  match m with
  | [] => none
  | (k', v) :: rest => if k' = k then some v else mapGet rest k

/-- A map write `m[k] = v`: the entry of `k` is replaced where it stands, a new
key is added. -/
def mapSet {κ β : Type} [DecidableEq κ] (m : List (κ × β)) (k : κ) (v : β) : List (κ × β) :=
  match m with
  | [] => [(k, v)]
  | (k', v') :: rest => if k' = k then (k, v) :: rest else (k', v') :: mapSet rest k v

/-- The consensus engine parameters: `params.ParliaConfig`. -/
structure ParliaConfig where
  Period : Nat
  Epoch : Nat
  deriving DecidableEq, Repr

/-- The chain parameters, with the fields the generator sets: `params.ChainConfig`. -/
structure ChainConfig where
  ChainID : Option Int
  HomesteadBlock : Option Int
  EIP150Block : Option Int
  EIP155Block : Option Int
  EIP158Block : Option Int
  ByzantiumBlock : Option Int
  ConstantinopleBlock : Option Int
  PetersburgBlock : Option Int
  IstanbulBlock : Option Int
  MuirGlacierBlock : Option Int
  RamanujanBlock : Option Int
  NielsBlock : Option Int
  MirrorSyncBlock : Option Int
  BrunoBlock : Option Int
  RuntimeUpgradeBlock : Option Int
  DeployOriginBlock : Option Int
  DeploymentHookFixBlock : Option Int
  DeployerFactoryBlock : Option Int
  Dragon8Time : Option Nat
  Dragon8FixTime : Option Nat
  BerlinBlock : Option Int
  LondonBlock : Option Int
  ArrowGlacierBlock : Option Int
  GrayGlacierBlock : Option Int
  EulerBlock : Option Int
  NanoBlock : Option Int
  MoranBlock : Option Int
  GibbsBlock : Option Int
  PlanckBlock : Option Int
  LubanBlock : Option Int
  PlatoBlock : Option Int
  HertzBlock : Option Int
  HertzfixBlock : Option Int
  KeplerTime : Option Nat
  ShanghaiTime : Option Nat
  Parlia : Option ParliaConfig
  deriving DecidableEq, Repr

/-- The genesis document: `core.Genesis`. -/
structure Genesis where
  Config : Option ChainConfig
  Nonce : Nat
  Timestamp : Nat
  ExtraData : Bytes
  GasLimit : Nat
  Difficulty : Option Int
  Mixhash : Hash
  Coinbase : Address
  Alloc : Option GenesisAlloc
  Number : Nat
  GasUsed : Nat
  ParentHash : Hash
  deriving DecidableEq, Repr

structure consensusParams where
  ActiveValidatorsLength : Nat
  EpochBlockInterval : Nat
  MisdemeanorThreshold : Nat
  FelonyThreshold : Nat
  ValidatorJailEpochLength : Nat
  UndelegatePeriod : Nat
  MinValidatorStakeAmount : Option Int
  MinStakingAmount : Option Int
  deriving DecidableEq, Repr

structure tokenomicsParams where
  StakingShare : Nat := 0
  SystemRewardsShare : Nat := 0
  deriving DecidableEq, Repr

structure ChilizForks where
  RuntimeUpgradeBlock : Option Int := none
  DeployOriginBlock : Option Int := none
  DeploymentHookFixBlock : Option Int := none
  DeployerFactoryBlock : Option Int := none
  Dragon8Time : Nat := 0
  Dragon8FixTime : Nat := 0
  deriving DecidableEq, Repr

/-- A network profile: `genesisConfig`.  The three maps are lists of pairs
with distinct keys, in the order `range` visits them. -/
structure genesisConfig where
  ChainId : Int
  Deployers : List Address
  Validators : List Address
  SystemTreasury : List (Address × Nat)
  ConsensusParams : consensusParams
  TokenomicsParams : tokenomicsParams := {}
  VotingPeriod : Int
  Faucet : List (Address × String)
  CommissionRate : Int := 0
  InitialStakes : List (Address × String)
  Forks : ChilizForks := {}
  deriving DecidableEq, Repr

/-- The keys of a map are distinct, as in every Go map. -/
def distinctKeys {κ β : Type} (m : List (κ × β)) : Prop := (m.map Prod.fst).Nodup

instance {κ β : Type} [DecidableEq κ] (m : List (κ × β)) : Decidable (distinctKeys m) :=
  inferInstanceAs (Decidable (m.map Prod.fst).Nodup)

/-- The compiled artifact of a contract: `artifactData`. -/
structure artifactData where
  Bytecode : String
  DeployedBytecode : String
  deriving DecidableEq, Repr

/-! ## Effects -/

/-- A Go value handed to the ABI encoder as `interface{}`. -/
inductive AbiValue where
  | addresses (l : List Address)
  | bigInts (l : List Int)
  | bigInt (n : Option Int)
  | uint16 (n : Nat)
  | uint32 (n : Nat)
  | uint16s (l : List Nat)
  | address (a : Address)
  | bytes (b : Bytes)
  deriving DecidableEq, Repr

/-- What a deployment returns: the data (runtime code, or the revert data),
the error, and the storage slots the target account wrote. -/
structure CreateResult where
  ret : Bytes
  err : Option String
  dirtyStorage : StateStorage

/-- What a call returns. -/
structure CallResult where
  ret : Bytes
  err : Option String
  /-- The storage slots the target account holds dirty after the call. -/
  dirtyStorage : StateStorage := []

/-- The nine embedded artifacts (`//go:embed out/...`). -/
structure Artifacts where
  staking : Bytes
  stakingPool : Bytes
  chainConfig : Bytes
  slashingIndicator : Bytes
  systemReward : Bytes
  governance : Bytes
  runtimeUpgrade : Bytes
  deployerProxy : Bytes
  tokenomics : Bytes

/-- The collaborators outside the repository. -/
structure Env where
  /-- The clock: `time.Now().Unix()`. -/
  now : Int
  /-- The file system: `os.ReadFile`. -/
  readFile : String → Except String Bytes
  /-- The decoder `json.Unmarshal` into a `core.Genesis`. -/
  unmarshalGenesis : Bytes → Except String Genesis
  /-- The decoder rejects a document without its required `alloc` field: a
  decoded document carries an allocation map. -/
  unmarshalGenesis_alloc : ∀ b g, unmarshalGenesis b = .ok g → g.Alloc ≠ none
  /-- The decoder `json.Unmarshal` into an `artifactData`. -/
  unmarshalArtifact : Bytes → Except String artifactData
  /-- The embedded artifacts. -/
  artifacts : Artifacts
  /-- The ABI encoder `newArguments(typeNames...).Pack(params...)`; an unknown
  type name and a value that does not fit are its errors. -/
  pack : List String → List AbiValue → Except String Bytes
  /-- The error of `state.New` on a fresh in-memory database. -/
  stateNew : Option String
  /-- The deployment `evm.CreateWithAddress` of the init code at the target
  address, in the block of the document, the target pre-funded. -/
  create : Genesis → Address → Bytes → Option Int → CreateResult
  /-- The call `evm.Call` of the target with the given data, in the state the
  deployment left. -/
  call : Genesis → Address → Bytes → Option Int → Bytes → CallResult
  /-- The hook address `systemcontract.EvmHookRuntimeUpgradeAddress`. -/
  EvmHookRuntimeUpgradeAddress : Address
  /-- The error of writing the serialised document to the target. -/
  write : String → Genesis → Option String

/-- What a run does to the outside, in order. -/
inductive Event where
  /-- A line of `fmt.Printf` on standard output. -/
  | printf (text : String)
  /-- A `print` or `println` of the runtime, on standard error. -/
  | print (text : String)
  /-- A read of a file. -/
  | readFile (path : String)
  /-- A deployment by the execution engine. -/
  | create (target : Address) (initCode : Bytes) (balance : Option Int)
  /-- A call by the execution engine. -/
  | call (target : Address) (data : Bytes)
  /-- The write of the serialised document to the target file or stream. -/
  | write (target : String) (doc : Genesis)
  deriving DecidableEq, Repr

/-- The two ways a Go function fails. -/
inductive Failure where
  /-- A returned `error` with this message. -/
  | error (msg : String)
  /-- A `panic` with this message. -/
  | panic (msg : String)
  deriving DecidableEq, Repr

/-- An effectful computation: its events and its result or failure. -/
structure Run (α : Type) where
  events : List Event
  result : Except Failure α

namespace Run

def pure {α : Type} (a : α) : Run α := ⟨[], .ok a⟩

def bind {α β : Type} (x : Run α) (f : α → Run β) : Run β :=
  match x.result with
  | .error e => ⟨x.events, .error e⟩
  | .ok a => ⟨x.events ++ (f a).events, (f a).result⟩

/-- A single event. -/
def emit (e : Event) : Run Unit := ⟨[e], .ok ()⟩

/-- A failure. -/
def fail {α : Type} (f : Failure) : Run α := ⟨[], .error f⟩

end Run

/-! ## The generator -/

/-- Copy into the tail of a slice, `copy(dst[off:], src)`: as many bytes as fit. -/
def goCopy (dst : Bytes) (off : Nat) (src : Bytes) : Bytes :=
  let n := min src.length (dst.length - off)
  dst.take off ++ src.take n ++ dst.drop (off + n)

/-- The loop of `createExtraData`, at index `i`. -/
def createExtraDataLoop : Nat → List Address → Bytes → Bytes
  | _, [], extra => extra
  | i, v :: rest, extra => createExtraDataLoop (i + 1) rest (goCopy extra (32 + 20 * i) v.bytes)

def createExtraData (validators : List Address) : Bytes :=
  createExtraDataLoop 0 validators (List.replicate (32 + 20 * validators.length + 65) 0)

/-- The storage slots the target account wrote, which the source reads out of
the state object by reflection. -/
def readDirtyStorageFromState (created : CreateResult) : StateStorage := created.dirtyStorage

/-- The selector of the init call, `hexutil.MustDecode("0xe1c7392a")`. -/
def initSelector : Bytes := [0xe1, 0xc7, 0x39, 0x2a]

/-- The printing of a revert reason: one `print` for every byte in `32..127`,
then `println()`. -/
def printReason (data : Bytes) : List Event :=
  (data.filter fun c => 32 ≤ c.val ∧ c.val ≤ 127).map (fun c => Event.print (asciiString [c]))
    ++ [Event.print "\n"]

/-- The failure branch of `simulateSystemContract`: slice the returned data at
offset 64, print what is printable, return the error. -/
def reportFailure {α : Type} (data : Bytes) (err : String) : Run α :=
  match sliceFrom data 64 with
  | .error p => Run.fail (.panic p)
  | .ok tail => ⟨printReason tail, .error (.error err)⟩

def simulateSystemContract (env : Env) (genesis : Genesis) (systemContract : Address)
    (rawArtifact : Bytes) (ctor : Bytes) (balance : Option Int) : Run Genesis :=
  match env.unmarshalArtifact rawArtifact with
  | .error e => Run.fail (.error e)
  | .ok artifact =>
    match hexutilDecode artifact.Bytecode with
    | .error e => Run.fail (.panic e)
    | .ok code =>
      let bytecode := code ++ ctor
      match env.stateNew with
      | some e => Run.fail (.error e)
      | none =>
        Run.bind (Run.emit (.create systemContract bytecode balance)) fun _ =>
        let created := env.create genesis systemContract bytecode balance
        match created.err with
        | some e => reportFailure created.ret e
        | none =>
          let storage := readDirtyStorageFromState created
          let genesisAccount : GenesisAccount :=
            { Code := created.ret, Storage := storage, Balance := some 0, Nonce := 0 }
          let merged : Genesis :=
            { genesis with Alloc := some (mapSet (genesis.Alloc.getD []) systemContract genesisAccount) }
          Run.bind (Run.emit (.call systemContract initSelector)) fun _ =>
          let called := env.call genesis systemContract bytecode balance initSelector
          match called.err with
          | some e => reportFailure called.ret e
          | none => Run.pure merged

/-- A 32-byte big-endian word: `packNum`. -/
def word256 (n : Nat) : Bytes := (List.range 32).map fun i => byteOfNat (n / 256 ^ (31 - i))

/-- The encoding of one `bytes` argument, `newArguments("bytes").Pack(b)`: the
offset 32, the length, and the data padded with zeros to a multiple of 32. -/
def packBytes (b : Bytes) : Bytes :=
  word256 32 ++ word256 b.length ++ b ++ List.replicate ((b.length + 31) / 32 * 32 - b.length) 0

/-- The selector `crypto.Keccak256("ctor(" + types + ")")[:4]`. -/
def ctorSelector (typeNames : List String) : Bytes :=
  (Keccak256 (goBytes ("ctor(" ++ ",".intercalate typeNames ++ ")"))).take 4

/-- The blob the constructor of a system contract reads. -/
def ctorBlob (typeNames : List String) (encoded : Bytes) : Bytes :=
  packBytes (ctorSelector typeNames ++ encoded)

def invokeConstructorOrPanic (env : Env) (genesis : Genesis) (contract : Address)
    (rawArtifact : Bytes) (typeNames : List String) (params : List AbiValue) (silent : Bool)
    (balance : Option Int) : Run Genesis :=
  match env.pack typeNames params with
  | .error e => Run.fail (.panic e)
  | .ok encoded =>
    let sig := ctorSelector typeNames
    let ctor := packBytes (sig ++ encoded)
    Run.bind (if silent then Run.pure () else
      Run.emit (.printf (" + calling constructor: address=" ++ contract.Hex ++ " sig="
        ++ hexutilEncode sig ++ " ctor=" ++ hexutilEncode ctor ++ "\n"))) fun _ =>
    let r := simulateSystemContract env genesis contract rawArtifact ctor balance
    match r.result with
    | .error (.error e) => ⟨r.events, .error (.panic e)⟩
    | _ => r

def stakingAddress : Address := HexToAddress "0x0000000000000000000000000000000000001000"

def slashingIndicatorAddress : Address := HexToAddress "0x0000000000000000000000000000000000001001"

def systemRewardAddress : Address := HexToAddress "0x0000000000000000000000000000000000001002"

def stakingPoolAddress : Address := HexToAddress "0x0000000000000000000000000000000000007001"

def governanceAddress : Address := HexToAddress "0x0000000000000000000000000000000000007002"

def chainConfigAddress : Address := HexToAddress "0x0000000000000000000000000000000000007003"

def runtimeUpgradeAddress : Address := HexToAddress "0x0000000000000000000000000000000000007004"

def deployerProxyAddress : Address := HexToAddress "0x0000000000000000000000000000000000007005"

def tokenomicsAddress : Address := HexToAddress "0x0000000000000000000000000000000000007006"

def intermediarySystemAddress : Address := HexToAddress "0xfffffffffffffffffffffffffffffffffffffffe"

def decimalToBigInt (value : Option Int) : Option Int := value

def defaultGenesisConfig (now : Int) (config : genesisConfig) : Genesis :=
  let chainConfig : ChainConfig :=
    { ChainID := some config.ChainId
      HomesteadBlock := some 0
      EIP150Block := some 0
      EIP155Block := some 0
      EIP158Block := some 0
      ByzantiumBlock := some 0
      ConstantinopleBlock := some 0
      PetersburgBlock := some 0
      IstanbulBlock := some 0
      MuirGlacierBlock := some 0
      RamanujanBlock := some 0
      NielsBlock := some 0
      MirrorSyncBlock := some 0
      BrunoBlock := some 0
      RuntimeUpgradeBlock := decimalToBigInt config.Forks.RuntimeUpgradeBlock
      DeployOriginBlock := decimalToBigInt config.Forks.DeployOriginBlock
      DeploymentHookFixBlock := decimalToBigInt config.Forks.DeploymentHookFixBlock
      DeployerFactoryBlock := decimalToBigInt config.Forks.DeployerFactoryBlock
      Dragon8Time := some config.Forks.Dragon8Time
      Dragon8FixTime := some config.Forks.Dragon8FixTime
      BerlinBlock := some 0
      LondonBlock := some 0
      ArrowGlacierBlock := some 0
      GrayGlacierBlock := some 0
      EulerBlock := none
      NanoBlock := some 0
      MoranBlock := some 0
      GibbsBlock := some 0
      PlanckBlock := some 0
      LubanBlock := none
      PlatoBlock := none
      HertzBlock := some 0
      HertzfixBlock := some 0
      KeplerTime := some 0
      ShanghaiTime := some 0
      Parlia := some { Period := 3, Epoch := 0 } }
  { Config := some chainConfig
    Nonce := 0
    Timestamp := (now % 2 ^ 64).toNat
    ExtraData := []
    GasLimit := 0x2625a00
    Difficulty := some 1
    Mixhash := 0
    Coinbase := 0
    Alloc := none
    Number := 0
    GasUsed := 0
    ParentHash := 0 }

def existingGenesisConfigOrDefault (env : Env) (config : genesisConfig)
    (existingGenesisFile : String) (silent : Bool) : Run (Genesis × Bool) :=
  Run.bind (Run.emit (.readFile existingGenesisFile)) fun _ =>
  match env.readFile existingGenesisFile with
  | .error _ =>
    Run.bind (if silent then Run.pure () else
      Run.emit (.printf ("WARN: failed to find existing genesis config (" ++ existingGenesisFile
        ++ "), re-creating"))) fun _ =>
    Run.pure (defaultGenesisConfig env.now config, false)
  | .ok bytes =>
    match env.unmarshalGenesis bytes with
    | .error e =>
      Run.bind (if silent then Run.pure () else
        Run.emit (.printf ("ERR: failed to parse existing genesis config (" ++ existingGenesisFile
          ++ "), re-creating: " ++ e))) fun _ =>
      Run.pure (defaultGenesisConfig env.now config, false)
    | .ok genesis =>
      let defaultConfig := defaultGenesisConfig env.now config
      Run.pure ({ genesis with Config := defaultConfig.Config }, true)

/-- The message of a nil dereference. -/
def nilDereference : String := "runtime error: invalid memory address or nil pointer dereference"

/-- The assignment `genesis.Config.Parlia.Epoch = epoch`, through two pointers. -/
def setEpoch (genesis : Genesis) (epoch : Nat) : Option Genesis :=
  match genesis.Config with
  | none => none
  | some chainConfig =>
    match chainConfig.Parlia with
    | none => none
    | some parlia =>
      some { genesis with Config := some { chainConfig with Parlia := some { parlia with Epoch := epoch } } }

/-- The loop of `createGenesisConfig` over the validators: every stake is
looked up and decoded, collected and added to the total. -/
def stakeLoop (stakes : List (Address × String)) :
    List Address → List Int → Int → Except Failure (List Int × Int)
  | [], initialStakes, initialStakeTotal => .ok (initialStakes, initialStakeTotal)
  | v :: rest, initialStakes, initialStakeTotal =>
    match mapGet stakes v with
    | none => .error (.error ("initial stake is not found for validator: " ++ v.Hex))
    | some rawInitialStake =>
      match DecodeBig rawInitialStake with
      | .error e => .error (.error e)
      | .ok initialStake =>
        stakeLoop stakes rest (initialStakes ++ [initialStake]) (initialStakeTotal + initialStake)

/-- The loop of `createGenesisConfig` over the faucet map. -/
def faucetLoop : List (Address × String) → GenesisAlloc → Except Failure GenesisAlloc
  | [], alloc => .ok alloc
  | (key, value) :: rest, alloc =>
    match sliceFrom (goBytes value) 2 with
    | .error p => .error (.panic p)
    | .ok digits =>
      match SetString16 digits with
      | none => .error (.error ("failed to parse number (" ++ value ++ ")"))
      | some balance => faucetLoop rest (mapSet alloc key { Balance := some balance })

/-- The nine constructor invocations of a fresh build, in their order. -/
def deployContracts (env : Env) (config : genesisConfig) (genesis : Genesis)
    (initialStakes : List Int) (initialStakeTotal : Int) (suppressLogging : Bool) : Run Genesis :=
  Run.bind (invokeConstructorOrPanic env genesis stakingAddress env.artifacts.staking
    ["address[]", "uint256[]", "uint16"]
    [.addresses config.Validators, .bigInts initialStakes,
     .uint16 (config.CommissionRate % 2 ^ 16).toNat]
    suppressLogging (some initialStakeTotal)) fun genesis =>
  Run.bind (invokeConstructorOrPanic env genesis chainConfigAddress env.artifacts.chainConfig
    ["uint32", "uint32", "uint32", "uint32", "uint32", "uint32", "uint256", "uint256"]
    [.uint32 config.ConsensusParams.ActiveValidatorsLength,
     .uint32 config.ConsensusParams.EpochBlockInterval,
     .uint32 config.ConsensusParams.MisdemeanorThreshold,
     .uint32 config.ConsensusParams.FelonyThreshold,
     .uint32 config.ConsensusParams.ValidatorJailEpochLength,
     .uint32 config.ConsensusParams.UndelegatePeriod,
     .bigInt config.ConsensusParams.MinValidatorStakeAmount,
     .bigInt config.ConsensusParams.MinStakingAmount]
    suppressLogging none) fun genesis =>
  Run.bind (invokeConstructorOrPanic env genesis slashingIndicatorAddress
    env.artifacts.slashingIndicator [] [] suppressLogging none) fun genesis =>
  Run.bind (invokeConstructorOrPanic env genesis stakingPoolAddress
    env.artifacts.stakingPool [] [] suppressLogging none) fun genesis =>
  let treasuryAddresses := config.SystemTreasury.map Prod.fst
  let treasuryShares := config.SystemTreasury.map Prod.snd
  Run.bind (invokeConstructorOrPanic env genesis systemRewardAddress env.artifacts.systemReward
    ["address[]", "uint16[]"] [.addresses treasuryAddresses, .uint16s treasuryShares]
    suppressLogging none) fun genesis =>
  Run.bind (invokeConstructorOrPanic env genesis governanceAddress env.artifacts.governance
    ["uint256"] [.bigInt (some config.VotingPeriod)] suppressLogging none) fun genesis =>
  Run.bind (invokeConstructorOrPanic env genesis runtimeUpgradeAddress env.artifacts.runtimeUpgrade
    ["address"] [.address env.EvmHookRuntimeUpgradeAddress] suppressLogging none) fun genesis =>
  Run.bind (invokeConstructorOrPanic env genesis deployerProxyAddress env.artifacts.deployerProxy
    ["address[]"] [.addresses config.Deployers] suppressLogging none) fun genesis =>
  invokeConstructorOrPanic env genesis tokenomicsAddress env.artifacts.tokenomics
    ["uint16", "uint16"]
    [.uint16 config.TokenomicsParams.StakingShare, .uint16 config.TokenomicsParams.SystemRewardsShare]
    suppressLogging none

/-- The allocations written after the deployments: the intermediary system
account, the balance of the Staking contract, the faucet. -/
def fundAccounts (config : genesisConfig) (genesis : Genesis) (initialStakeTotal : Int) :
    Except Failure Genesis :=
  match genesis.Alloc with
  | none => .error (.panic "assignment to entry in nil map")
  | some alloc =>
    let alloc := mapSet alloc intermediarySystemAddress { Balance := some 0 }
    let stakingAlloc : GenesisAccount := (mapGet alloc stakingAddress).getD {}
    let stakingAlloc := { stakingAlloc with Balance := some initialStakeTotal }
    let alloc := mapSet alloc stakingAddress stakingAlloc
    match faucetLoop config.Faucet alloc with
    | .error f => .error f
    | .ok alloc => .ok { genesis with Alloc := some alloc }

/-- The body of `if genesis.Alloc == nil { ... }`. -/
def freshAllocation (env : Env) (config : genesisConfig) (genesis : Genesis)
    (initialStakes : List Int) (initialStakeTotal : Int) (suppressLogging : Bool) : Run Genesis :=
  Run.bind (deployContracts env config genesis initialStakes initialStakeTotal suppressLogging)
    fun genesis =>
  match fundAccounts config genesis initialStakeTotal with
  | .error f => Run.fail f
  | .ok genesis => Run.pure genesis

/-- The serialisation and the write to the target: the file, or one of the
streams named `stdout` and `stderr`.  The event carries the document that is
serialised. -/
def writeDocument (env : Env) (targetFile : String) (genesis : Genesis) : Run Unit :=
  Run.bind (Run.emit (.write targetFile genesis)) fun _ =>
  match env.write targetFile genesis with
  | some e => Run.fail (.error e)
  | none => Run.pure ()

/-- The document `createGenesisConfig` starts from: the existing one in the
update path, the default one otherwise. -/
def initialGenesis (env : Env) (config : genesisConfig) (targetFile : String)
    (updateOnlyConfig : Bool) (suppressLogging : Bool) : Run Genesis :=
  if updateOnlyConfig then
    Run.bind (existingGenesisConfigOrDefault env config targetFile suppressLogging)
      fun loaded => Run.pure loaded.1
  else Run.pure (defaultGenesisConfig env.now config)

def createGenesisConfig (env : Env) (config : genesisConfig) (targetFile : String)
    (updateOnlyConfig : Bool) : Run Unit :=
  let suppressLogging : Bool := targetFile == "stdout"
  Run.bind (initialGenesis env config targetFile updateOnlyConfig suppressLogging) fun genesis =>
  let genesis := { genesis with ExtraData := createExtraData config.Validators }
  match setEpoch genesis config.ConsensusParams.EpochBlockInterval with
  | none => Run.fail (.panic nilDereference)
  | some genesis =>
    match stakeLoop config.InitialStakes config.Validators [] 0 with
    | .error f => Run.fail f
    | .ok (initialStakes, initialStakeTotal) =>
      Run.bind (match genesis.Alloc with
        | some _ => Run.pure genesis
        | none =>
          freshAllocation env config genesis initialStakes initialStakeTotal suppressLogging)
        fun genesis =>
      writeDocument env targetFile genesis

/-! ## What a run is observed by -/

/-- An engine event: a deployment or a call. -/
def Event.isEngine : Event → Bool
  | .create _ _ _ => true
  | .call _ _ => true
  | _ => false

/-- The document of a write event. -/
def Event.written : Event → Option Genesis
  | .write _ doc => some doc
  | _ => none

/-- A log event: a file read or a line on standard output. -/
def Event.isLog : Event → Bool
  | .readFile _ => true
  | .printf _ => true
  | _ => false

/-- The engine events of a run, in order. -/
def engineCalls (events : List Event) : List Event := events.filter Event.isEngine

/-- The documents written by a run, in order. -/
def writtenDocuments (events : List Event) : List Genesis := events.filterMap Event.written

/-- The stake a profile declares for a validator, decoded. -/
def declaredStake (config : genesisConfig) (v : Address) : Option Int :=
  match mapGet config.InitialStakes v with
  | none => none
  | some raw =>
    match DecodeBig raw with
    | .error _ => none
    | .ok n => some n

/-- The entry of an address in the allocation map of a document. -/
def entryOf (doc : Genesis) (a : Address) : Option GenesisAccount :=
  match doc.Alloc with
  | none => none
  | some alloc => mapGet alloc a

/-- The addresses of the nine system contracts, in the order of deployment. -/
def systemContracts : List Address :=
  [stakingAddress, chainConfigAddress, slashingIndicatorAddress, stakingPoolAddress,
   systemRewardAddress, governanceAddress, runtimeUpgradeAddress, deployerProxyAddress,
   tokenomicsAddress]

/-- The second document is the first one with an allocation map that has
entries at most where the first one has, and at the addresses `added`. -/
def allocExtends (added : List Address) (g g' : Genesis) : Prop :=
  ∃ alloc, g' = { g with Alloc := some alloc } ∧
    ∀ k, mapGet alloc k ≠ none → mapGet (g.Alloc.getD []) k ≠ none ∨ k ∈ added

deriving instance DecidableEq for Except

/-! ## Sample collaborators and profiles -/

/-- An environment with no file on disk, in which every artifact decodes to
the same two bytes of creation code, the encoder returns the empty encoding
and every deployment and init call succeeds. -/
def sampleEnv : Env where
  now := 1700000000
  readFile := fun _ => .error "open: no such file or directory"
  unmarshalGenesis := fun _ => .error "unexpected end of JSON input"
  unmarshalGenesis_alloc := by intro b g h; cases h
  unmarshalArtifact := fun _ => .ok { Bytecode := "0x6080", DeployedBytecode := "0x60" }
  artifacts := ⟨[], [], [], [], [], [], [], [], []⟩
  pack := fun _ _ => .ok []
  stateNew := none
  create := fun _ _ _ _ => { ret := [0x60], err := none, dirtyStorage := [] }
  call := fun _ _ _ _ _ => { ret := [], err := none }
  EvmHookRuntimeUpgradeAddress := addressOfNat 0x7f01
  write := fun _ _ => none

/-- A profile with two validators and no initial stake at all. -/
def twoValidatorsNoStake : genesisConfig where
  ChainId := 1337
  Deployers := []
  Validators := [addressOfNat 1, addressOfNat 2]
  SystemTreasury := []
  ConsensusParams := ⟨25, 20, 5, 10, 3, 2, some 1000000000000000000, some 1000000000000000000⟩
  VotingPeriod := 20
  Faucet := []
  InitialStakes := []

/-- A profile with two validators of which the second has no initial stake. -/
def secondValidatorNoStake : genesisConfig :=
  { twoValidatorsNoStake with InitialStakes := [(addressOfNat 1, "0x3635c9adc5dea00000")] }

/-- A profile with one validator with a stake of 1000 ether, and nothing else. -/
def oneValidator : genesisConfig where
  ChainId := 1337
  Deployers := []
  Validators := [addressOfNat 1]
  SystemTreasury := []
  ConsensusParams := ⟨25, 20, 5, 10, 3, 2, some 1000000000000000000, some 1000000000000000000⟩
  VotingPeriod := 20
  Faucet := []
  InitialStakes := [(addressOfNat 1, "0x3635c9adc5dea00000")]

/-- The profile `oneValidator` with a faucet grant of 10000 ether to the
address of the Staking contract. -/
def faucetAtStaking : genesisConfig :=
  { oneValidator with Faucet := [(stakingAddress, "0x21e19e0c9bab2400000")] }

/-- The profile `oneValidator` with a faucet grant to an ordinary address. -/
def faucetGrant : genesisConfig :=
  { oneValidator with Faucet := [(addressOfNat 0xb891fe7b38f857f53a7b5529204c58d5c487280b,
      "0x52b7d2dcc80cd2e4000000")] }

/-- The profile `faucetGrant` with the whole treasury share at the zero
address, as in the development network. -/
def treasuryAtZero : genesisConfig :=
  { faucetGrant with SystemTreasury := [(addressOfNat 0, 10000)] }

/-- The profile `oneValidator` with a faucet value whose first two characters
are not `0x`. -/
def faucetWrongPrefix : genesisConfig :=
  { oneValidator with Faucet := [(addressOfNat 0xb891fe7b38f857f53a7b5529204c58d5c487280b, "zz10")] }

/-- The profile `oneValidator` with a faucet value of one character. -/
def faucetShortValue : genesisConfig :=
  { oneValidator with Faucet := [(addressOfNat 0xb891fe7b38f857f53a7b5529204c58d5c487280b, "0")] }

/-- A genesis document as a previous run for one validator left it on disk:
the Staking contract with code, a storage slot and the staked balance. -/
def existingDocument : Genesis where
  Config := (defaultGenesisConfig 1600000000 oneValidator).Config
  Nonce := 0
  Timestamp := 1600000000
  ExtraData := createExtraData [addressOfNat 1]
  GasLimit := 0x2625a00
  Difficulty := some 1
  Mixhash := 0
  Coinbase := 0
  Alloc := some [(stakingAddress,
    { Code := [0x60, 0x80], Storage := [(1, 2)], Balance := some 1000000000000000000000, Nonce := 0 })]
  Number := 0
  GasUsed := 0
  ParentHash := 0

/-- The environment `sampleEnv` with `existingDocument` on disk at every path. -/
def updateEnv : Env :=
  { sampleEnv with
    readFile := fun _ => .ok []
    unmarshalGenesis := fun _ => .ok existingDocument
    unmarshalGenesis_alloc := by
      intro b g h
      cases h
      decide }

/-- A profile with two validators, each with a stake of 1000 ether. -/
def twoValidators : genesisConfig :=
  { oneValidator with
    Validators := [addressOfNat 1, addressOfNat 2]
    InitialStakes := [(addressOfNat 1, "0x3635c9adc5dea00000"), (addressOfNat 2, "0x3635c9adc5dea00000")] }

/-- The environment `sampleEnv` with an engine whose deployments run out of
gas: the error comes with no data. -/
def outOfGasEnv : Env :=
  { sampleEnv with
    create := fun _ _ _ _ => { ret := [], err := some "out of gas", dirtyStorage := [] } }

/-- The environment `sampleEnv` with an engine whose init calls revert with
four bytes of data. -/
def initRevertEnv : Env :=
  { sampleEnv with
    call := fun _ _ _ _ _ => { ret := [0x08, 0xc3, 0x79, 0xa0], err := some "execution reverted" } }

/-- The environment `sampleEnv` with an encoder that returns one word. -/
def oneWordEnv : Env :=
  { sampleEnv with pack := fun _ _ => .ok (word256 20) }

/-- The text a run printed on standard error: the texts of its `print` events,
one after the other. -/
def printedText (events : List Event) : List Char :=
  events.flatMap fun e =>
    match e with
    | .print text => text.toList
    | _ => []

/-- The standard revert payload `Error(string)` with message `m`: the selector
`0x08c379a0`, the offset word 32, the length word, the message and its zero
padding to a multiple of 32. -/
def errorStringPayload (m : Bytes) : Bytes :=
  [0x08, 0xc3, 0x79, 0xa0] ++ word256 32 ++ word256 m.length ++ m
    ++ List.replicate ((m.length + 31) / 32 * 32 - m.length) 0

/-- The environment `sampleEnv` with an engine whose deployments revert with
the reason `Staking: only owner`. -/
def revertingEnv : Env :=
  { sampleEnv with
    create := fun _ _ _ _ =>
      { ret := errorStringPayload (goBytes "Staking: only owner")
        err := some "execution reverted"
        dirtyStorage := [] } }

/-- The environment `sampleEnv` with a file on disk at every path that is not
a genesis document. -/
def unparseableEnv : Env :=
  { sampleEnv with readFile := fun _ => .ok [0x7b] }

/-- The environment `sampleEnv` with an engine whose deployments write slot 1
and whose init calls write slot 2 as well. -/
def initWritesEnv : Env :=
  { sampleEnv with
    create := fun _ _ _ _ => { ret := [0x60], err := none, dirtyStorage := [(1, 7)] }
    call := fun _ _ _ _ _ => { ret := [], err := none, dirtyStorage := [(1, 7), (2, 9)] } }

/-! ## The built-in profiles -/

/-- Decoding of a quantity that panics on an error, `hexutil.MustDecodeBig`;
the literals of the profiles all decode (`profile_literals_decode`), the value
0 stands for the panic. -/
def MustDecodeBig (input : String) : Int :=
  match DecodeBig input with
  | .ok n => n
  | .error _ => 0

/-- The local profile; `start₁` and `start₂` are the two readings of
`time.Now().Unix()` taken when the program starts. -/
def localNetConfig (start₁ start₂ : Int) : genesisConfig where
  ChainId := 1337
  Deployers := [HexToAddress "0x00a601f45688dba8a070722073b015277cf36725"]
  Validators := [HexToAddress "0x00a601f45688dba8a070722073b015277cf36725"]
  SystemTreasury := [(HexToAddress "0x00a601f45688dba8a070722073b015277cf36725", 10000)]
  ConsensusParams :=
    { ActiveValidatorsLength := 25
      EpochBlockInterval := 20
      MisdemeanorThreshold := 5
      FelonyThreshold := 10
      ValidatorJailEpochLength := 3
      UndelegatePeriod := 2
      MinValidatorStakeAmount := some (MustDecodeBig "0xde0b6b3a7640000")
      MinStakingAmount := some (MustDecodeBig "0x1bc16d674ec800002") }
  InitialStakes := [(HexToAddress "0x00a601f45688dba8a070722073b015277cf36725", "0x3635c9adc5dea00000")]
  TokenomicsParams := { StakingShare := 6500, SystemRewardsShare := 3500 }
  VotingPeriod := 20
  Faucet :=
    [(HexToAddress "0x00a601f45688dba8a070722073b015277cf36725", "0x21e19e0c9bab2400000"),
     (HexToAddress "0x57BA24bE2cF17400f37dB3566e839bfA6A2d018a", "0x21e19e0c9bab2400000"),
     (HexToAddress "0xAc55Ad39532e7E609DDa1FFfA7F0B6D796dcB049", "0x21e19e0c9bab2400000")]
  Forks :=
    { RuntimeUpgradeBlock := some 0
      DeployOriginBlock := some 0
      DeploymentHookFixBlock := some 0
      DeployerFactoryBlock := some 0
      Dragon8Time := (start₁ % 2 ^ 64).toNat
      Dragon8FixTime := (start₂ % 2 ^ 64).toNat }

def devNetConfig : genesisConfig where
  ChainId := 17243
  Deployers := []
  Validators :=
    [HexToAddress "0x08fae3885e299c24ff9841478eb946f41023ac69",
     HexToAddress "0x751aaca849b09a3e347bbfe125cf18423cc24b40",
     HexToAddress "0xa6ff33e3250cc765052ac9d7f7dfebda183c4b9b",
     HexToAddress "0x49c0f7c8c11a4c80dc6449efe1010bb166818da8",
     HexToAddress "0x8e1ea6eaa09c3b40f4a51fcd056a031870a0549a"]
  SystemTreasury := [(HexToAddress "0x0000000000000000000000000000000000000000", 10000)]
  ConsensusParams :=
    { ActiveValidatorsLength := 25
      EpochBlockInterval := 1200
      MisdemeanorThreshold := 50
      FelonyThreshold := 150
      ValidatorJailEpochLength := 7
      UndelegatePeriod := 6
      MinValidatorStakeAmount := some (MustDecodeBig "0xde0b6b3a7640000")
      MinStakingAmount := some (MustDecodeBig "0xde0b6b3a7640000") }
  InitialStakes :=
    [(HexToAddress "0x08fae3885e299c24ff9841478eb946f41023ac69", "0x3635c9adc5dea00000"),
     (HexToAddress "0x751aaca849b09a3e347bbfe125cf18423cc24b40", "0x3635c9adc5dea00000"),
     (HexToAddress "0xa6ff33e3250cc765052ac9d7f7dfebda183c4b9b", "0x3635c9adc5dea00000"),
     (HexToAddress "0x49c0f7c8c11a4c80dc6449efe1010bb166818da8", "0x3635c9adc5dea00000"),
     (HexToAddress "0x8e1ea6eaa09c3b40f4a51fcd056a031870a0549a", "0x3635c9adc5dea00000")]
  VotingPeriod := 60
  Faucet :=
    [(HexToAddress "0x00a601f45688dba8a070722073b015277cf36725", "0x21e19e0c9bab2400000"),
     (HexToAddress "0xb891fe7b38f857f53a7b5529204c58d5c487280b", "0x52b7d2dcc80cd2e4000000")]

def testNetConfig : genesisConfig where
  ChainId := 88880
  Deployers := [HexToAddress "0x54E98ee51446505fcf69093E015Ee36034321104"]
  Validators :=
    [HexToAddress "0x86d12897C56Fe1dB08BDfB84Bc90f458ee7dC5cE",
     HexToAddress "0xE45D81a7EF9456A254aa4db010AAF6601a15B5B7",
     HexToAddress "0x76106F0857938684D24f2CE167EE11607dFaa57d",
     HexToAddress "0x48223C151df5dc1dBc2E24f17e77728358113705",
     HexToAddress "0x49CfDafF386FD2683d28678aBd53F11Dec23c76C"]
  SystemTreasury := [(HexToAddress "0xde8712be934a6A4C7dDd17DC91669F51284f4b0c", 10000)]
  ConsensusParams :=
    { ActiveValidatorsLength := 5
      EpochBlockInterval := 1200
      MisdemeanorThreshold := 100
      FelonyThreshold := 200
      ValidatorJailEpochLength := 6
      UndelegatePeriod := 1
      MinValidatorStakeAmount := some (MustDecodeBig "0x3635c9adc5dea00000")
      MinStakingAmount := some (MustDecodeBig "0xde0b6b3a7640000") }
  InitialStakes :=
    [(HexToAddress "0x86d12897C56Fe1dB08BDfB84Bc90f458ee7dC5cE", "0x152D02C7E14AF6800000"),
     (HexToAddress "0xE45D81a7EF9456A254aa4db010AAF6601a15B5B7", "0x3635C9ADC5DEA00000"),
     (HexToAddress "0x76106F0857938684D24f2CE167EE11607dFaa57d", "0x3635C9ADC5DEA00000"),
     (HexToAddress "0x48223C151df5dc1dBc2E24f17e77728358113705", "0x3635C9ADC5DEA00000"),
     (HexToAddress "0x49CfDafF386FD2683d28678aBd53F11Dec23c76C", "0x2B5E3AF16B1880000")]
  VotingPeriod := 1200
  Faucet :=
    [(HexToAddress "0xb0c09bF51E04eDc7Bf198D61bB74CDa886878167", "0x197D7361310E45C669F80000"),
     (HexToAddress "0xc59181b702A7F3A8eCea27f30072B8dbCcC0c48a", "0x33B2E3C9FD0803CE8000000")]
  Forks :=
    { RuntimeUpgradeBlock := some 0
      DeployOriginBlock := some 2849000
      DeploymentHookFixBlock := some 6067300
      DeployerFactoryBlock := none }

def spicyConfig : genesisConfig where
  ChainId := 88882
  Deployers := [HexToAddress "0x02880217b082cC24D371eB5Bad0827D208bcBC6D"]
  Validators :=
    [HexToAddress "0xb1b5a8b8E2a263C0F497BC32a7cb6D27AEA921fc",
     HexToAddress "0x4dD74707f22b74EC872CA6AEB2a065E3d006B9d9",
     HexToAddress "0xBD6D190548bbF5C6920a826dF063A970Bd18f307",
     HexToAddress "0xeC2e502f77c4811f2ef477397235976b1371FCd3",
     HexToAddress "0x1cB3FC9e10fB5b845e53e5EaAE0bD561e662b0A5",
     HexToAddress "0xbdBF08393b66130B4b243863150A265b2A5Df642",
     HexToAddress "0x86f2BB174c450917A1b560c66525E64A1c9B6a04"]
  SystemTreasury := [(HexToAddress "0x060eA461Cf7E78A38400dE9255687beb9b2c7298", 10000)]
  ConsensusParams :=
    { ActiveValidatorsLength := 5
      EpochBlockInterval := 7200
      MisdemeanorThreshold := 400
      FelonyThreshold := 800
      ValidatorJailEpochLength := 4
      UndelegatePeriod := 1
      MinValidatorStakeAmount := some (MustDecodeBig "0x3635c9adc5dea00000")
      MinStakingAmount := some (MustDecodeBig "0xde0b6b3a7640000") }
  InitialStakes :=
    [(HexToAddress "0xb1b5a8b8E2a263C0F497BC32a7cb6D27AEA921fc", "0x152D02C7E14AF6800000"),
     (HexToAddress "0x4dD74707f22b74EC872CA6AEB2a065E3d006B9d9", "0x3635C9ADC5DEA00000"),
     (HexToAddress "0xBD6D190548bbF5C6920a826dF063A970Bd18f307", "0x3635C9ADC5DEA00000"),
     (HexToAddress "0xeC2e502f77c4811f2ef477397235976b1371FCd3", "0x3635C9ADC5DEA00000"),
     (HexToAddress "0x1cB3FC9e10fB5b845e53e5EaAE0bD561e662b0A5", "0x3635C9ADC5DEA00000"),
     (HexToAddress "0xbdBF08393b66130B4b243863150A265b2A5Df642", "0x3635C9ADC5DEA00000"),
     (HexToAddress "0x86f2BB174c450917A1b560c66525E64A1c9B6a04", "0x3635C9ADC5DEA00000")]
  VotingPeriod := 1200
  Faucet :=
    [(HexToAddress "0x77c6DC8fC511Bf2Fa594c47DdC336C69D745e73A", "0x197D7361310E45C669F80000"),
     (HexToAddress "0xa6779032c48127f362244AADD80E3A6E1b50BA93", "0x33B2E3C9FD0803CE8000000")]
  Forks :=
    { RuntimeUpgradeBlock := some 0
      DeployOriginBlock := some 0
      DeploymentHookFixBlock := some 0
      DeployerFactoryBlock := none }

def mainNetConfig : genesisConfig where
  ChainId := 88888
  Deployers := [HexToAddress "0xfe74A701E42670fc23b64f8C4FaC59a0A01e6aA3"]
  Validators :=
    [HexToAddress "0x2045A60c9BFFCCEEB5a1AAD0e22A75965d221882",
     HexToAddress "0x811ceF18Ac8b28e0c4A54aB8220a51897ba9C489",
     HexToAddress "0x4d466f3A688Cb1096497dbcB9Fd68E500e24f0B1",
     HexToAddress "0x5c12a44A0bbaaF133123895cf90e05d94D6137Dc",
     HexToAddress "0x64552Cb88DE4Cd7438bFc6b8d4757305C6FA96Ae",
     HexToAddress "0xE548F293E2BA625eFB34c11e43217dD4330D6da8",
     HexToAddress "0xA2ec78Eb13C40c03F3F9283f7057B6C7E652F644",
     HexToAddress "0x7486B4f8f036B4Df55f7a55ab9b61D6d605067c6",
     HexToAddress "0xf57c7a5BCB023aB18683A46fA25a00fB19d651bE",
     HexToAddress "0xE0efCc3Fb5B1c66257945Ebc533C101783Fe97b4",
     HexToAddress "0x39a7179B6c73622B63B8b58b973835e00E9d38b4",
     HexToAddress "0x2064F56684377A8C50F4CdfBD5C65873763143fb",
     HexToAddress "0xe5cFf8f16dA0b3067BC7432ba2b4AE7199EAAE53",
     HexToAddress "0x52527E4b47ad69Cd69021fBB6dA2A4F210FEec62",
     HexToAddress "0x31Dd5A7429ae591D2d73935C001DD148faBDd2cf"]
  SystemTreasury := [(HexToAddress "0xFddAc11E0072e3377775345D58de0dc88A964837", 10000)]
  ConsensusParams :=
    { ActiveValidatorsLength := 11
      EpochBlockInterval := 28800
      MisdemeanorThreshold := 14400
      FelonyThreshold := 21600
      ValidatorJailEpochLength := 7
      UndelegatePeriod := 7
      MinValidatorStakeAmount := some (MustDecodeBig "0x84595161401484A000000")
      MinStakingAmount := some (MustDecodeBig "0x56BC75E2D63100000") }
  VotingPeriod := 271600
  InitialStakes :=
    [(HexToAddress "0x2045A60c9BFFCCEEB5a1AAD0e22A75965d221882", "0x84595161401484A000000"),
     (HexToAddress "0x811ceF18Ac8b28e0c4A54aB8220a51897ba9C489", "0x84595161401484A000000"),
     (HexToAddress "0x4d466f3A688Cb1096497dbcB9Fd68E500e24f0B1", "0x84595161401484A000000"),
     (HexToAddress "0x5c12a44A0bbaaF133123895cf90e05d94D6137Dc", "0x84595161401484A000000"),
     (HexToAddress "0x64552Cb88DE4Cd7438bFc6b8d4757305C6FA96Ae", "0x84595161401484A000000"),
     (HexToAddress "0xE548F293E2BA625eFB34c11e43217dD4330D6da8", "0x84595161401484A000000"),
     (HexToAddress "0xA2ec78Eb13C40c03F3F9283f7057B6C7E652F644", "0x84595161401484A000000"),
     (HexToAddress "0x7486B4f8f036B4Df55f7a55ab9b61D6d605067c6", "0x84595161401484A000000"),
     (HexToAddress "0xf57c7a5BCB023aB18683A46fA25a00fB19d651bE", "0x84595161401484A000000"),
     (HexToAddress "0xE0efCc3Fb5B1c66257945Ebc533C101783Fe97b4", "0x84595161401484A000000"),
     (HexToAddress "0x39a7179B6c73622B63B8b58b973835e00E9d38b4", "0x84595161401484A000000"),
     (HexToAddress "0x2064F56684377A8C50F4CdfBD5C65873763143fb", "0x84595161401484A000000"),
     (HexToAddress "0xe5cFf8f16dA0b3067BC7432ba2b4AE7199EAAE53", "0x84595161401484A000000"),
     (HexToAddress "0x52527E4b47ad69Cd69021fBB6dA2A4F210FEec62", "0x84595161401484A000000"),
     (HexToAddress "0x31Dd5A7429ae591D2d73935C001DD148faBDd2cf", "0x84595161401484A000000")]
  Faucet :=
    [(HexToAddress "0xFddAc11E0072e3377775345D58de0dc88A964837", "0x1C3CA1E1AAC1A93AF8800000"),
     (HexToAddress "0xfe74A701E42670fc23b64f8C4FaC59a0A01e6aA3", "0x56BC75E2D63100000"),
     (HexToAddress "0x8ee1c1f4b14c0A1698BdA02f58021968010523D2", "0x56BC75E2D63100000"),
     (HexToAddress "0xf9768B0Ac91F4B27f7F4DC88574a050c0e13Ccc1", "0x56BC75E2D63100000"),
     (HexToAddress "0x97ADd7226B3f1020fB3308cc67e74cb77757C211", "0x56BC75E2D63100000"),
     (HexToAddress "0x72676b2A2371Af4Fe23515e0E8bE9d44Bf41A6f4", "0x56BC75E2D63100000"),
     (HexToAddress "0xb67D0e9394932d3cFa6102A55F636481FBcc7976", "0x56BC75E2D63100000"),
     (HexToAddress "0x92D00DA3aE5f01761f5e1f425AFe3322931AAd31", "0x56BC75E2D63100000"),
     (HexToAddress "0xF25E764a2222532008D89FC018E70c18DD2401C2", "0x56BC75E2D63100000"),
     (HexToAddress "0x4e4620FE9dF2751F55FA01D24413343290c22698", "0x56BC75E2D63100000"),
     (HexToAddress "0xf299AfC34ec0B9dCAF868914288d735149d6306f", "0x56BC75E2D63100000"),
     (HexToAddress "0x9a905C99D7753F01918E389C785b5862CF7A3945", "0x56BC75E2D63100000"),
     (HexToAddress "0x19d0bc6d0Ca394E3547fF06A0F2805dB623dEcA8", "0x56BC75E2D63100000"),
     (HexToAddress "0x7F420438941EB35bCe2E7C6824B8f9c04Ad4f188", "0x56BC75E2D63100000"),
     (HexToAddress "0xdC3A7153A2afB491B94784d86d6A915Ce5dde102", "0x56BC75E2D63100000"),
     (HexToAddress "0x8a999c490793f9d340Be71Ea4Ae81E9C627bD0cd", "0x56BC75E2D63100000"),
     (HexToAddress "0x6d25F93FAb44a7651dd52B3560ac74d98e1f912C", "0x56BC75E2D63100000"),
     (HexToAddress "0x4b045692540E6B7AfDE44cdad60136d170efc623", "0x3635C9ADC5DEA00000"),
     (HexToAddress "0xb0AdF650ABDc7d2d5ac7366888ab492e9Df8589A", "0x3635C9ADC5DEA00000"),
     (HexToAddress "0x52f30AefB50B5d271d93A10730088733Bdbe31E0", "0x3635C9ADC5DEA00000"),
     (HexToAddress "0x1Cb83A71d81DaCe297975e377777c94a32d9D5dD", "0x3635C9ADC5DEA00000"),
     (HexToAddress "0xAE68F408160C40d508834734aC5bEd773a36e9D2", "0x3635C9ADC5DEA00000"),
     (HexToAddress "0x3665dfcdaf8310684c24592b017D986A993320e6", "0x3635C9ADC5DEA00000"),
     (HexToAddress "0x252B5CA6c838ae47508c1eA72Dd73b58c607Af0f", "0x3635C9ADC5DEA00000")]
  Forks :=
    { RuntimeUpgradeBlock := some 0
      DeployOriginBlock := some 0
      DeploymentHookFixBlock := some 0
      DeployerFactoryBlock := none }

/-- The stake of every validator of the list is declared and decodes. -/
def stakesDeclared (config : genesisConfig) : Bool :=
  config.Validators.all fun v => (declaredStake config v).isSome

/-- The profile `oneValidator` with a commission rate of 65537. -/
def commissionOverflow : genesisConfig :=
  { oneValidator with CommissionRate := 65537 }

/-- The profile `oneValidator` with the faucet value `10ff`, hexadecimal digits
without the prefix. -/
def faucetNoPrefix : genesisConfig :=
  { oneValidator with Faucet := [(addressOfNat 0xb891fe7b38f857f53a7b5529204c58d5c487280b, "10ff")] }

/-- The profile `oneValidator` with the faucet value `0x-10`, a sign after the
prefix. -/
def faucetSigned : genesisConfig :=
  { oneValidator with Faucet := [(addressOfNat 0xb891fe7b38f857f53a7b5529204c58d5c487280b, "0x-10")] }

/-! # Theorems -/

set_option maxRecDepth 1000000

theorem Run.bind_ok {α β : Type} (x : Run α) (f : α → Run β) (a : α) (h : x.result = .ok a) :
    Run.bind x f = ⟨x.events ++ (f a).events, (f a).result⟩ := by
  simp [Run.bind, h]

theorem Run.bind_error {α β : Type} (x : Run α) (f : α → Run β) (e : Failure)
    (h : x.result = .error e) : Run.bind x f = ⟨x.events, .error e⟩ := by
  simp [Run.bind, h]

/-! ## The stake loop -/

theorem stakeLoop_missing (stakes : List (Address × String)) (vs : List Address) (v : Address)
    (hv : v ∈ vs) (hmiss : mapGet stakes v = none) (acc : List Int) (tot : Int) :
    ∃ msg, stakeLoop stakes vs acc tot = .error (.error msg) := by
  induction vs generalizing acc tot with
  | nil => cases hv
  | cons w rest ih =>
    rcases hw : mapGet stakes w with _ | raw
    · exact ⟨"initial stake is not found for validator: " ++ w.Hex, by simp [stakeLoop, hw]⟩
    · rcases hd : DecodeBig raw with e | n
      · exact ⟨e, by simp [stakeLoop, hw, hd]⟩
      · have hvr : v ∈ rest := by
          rcases List.mem_cons.mp hv with h | h
          · subst h; rw [hmiss] at hw; cases hw
          · exact h
        obtain ⟨msg, hmsg⟩ := ih hvr (acc ++ [n]) (tot + n)
        exact ⟨msg, by simp [stakeLoop, hw, hd, hmsg]⟩

theorem stakeLoop_ok (stakes : List (Address × String)) (vs : List Address) (acc : List Int)
    (tot : Int) (l : List Int) (t : Int) (h : stakeLoop stakes vs acc tot = .ok (l, t)) :
    ∃ ns : List Int, l = acc ++ ns ∧ t = tot + ns.sum ∧
      List.Forall₂ (fun v n => ∃ raw, mapGet stakes v = some raw ∧ DecodeBig raw = .ok n) vs ns := by
  induction vs generalizing acc tot with
  | nil =>
    simp [stakeLoop] at h
    exact ⟨[], by simp [h.1], by simp [h.2], List.Forall₂.nil⟩
  | cons w rest ih =>
    rcases hw : mapGet stakes w with _ | raw
    · simp [stakeLoop, hw] at h
    · rcases hd : DecodeBig raw with e | n
      · simp [stakeLoop, hw, hd] at h
      · simp only [stakeLoop, hw, hd] at h
        obtain ⟨ns, h1, h2, h3⟩ := ih _ _ h
        refine ⟨n :: ns, by simp [h1], by simp [h2]; ring, List.Forall₂.cons ⟨raw, hw, hd⟩ h3⟩

theorem stakeLoop_first_missing (stakes : List (Address × String)) (pre post : List Address)
    (v : Address) (hpre : ∀ w ∈ pre, ∃ raw n, mapGet stakes w = some raw ∧ DecodeBig raw = .ok n)
    (hmiss : mapGet stakes v = none) (acc : List Int) (tot : Int) :
    stakeLoop stakes (pre ++ v :: post) acc tot
      = .error (.error ("initial stake is not found for validator: " ++ v.Hex)) := by
  induction pre generalizing acc tot with
  | nil => simp [stakeLoop, hmiss]
  | cons w rest ih =>
    obtain ⟨raw, n, h1, h2⟩ := hpre w (List.mem_cons_self _ _)
    simp only [List.cons_append, stakeLoop, h1, h2]
    exact ih (fun u hu => hpre u (List.mem_cons_of_mem _ hu)) _ _

theorem initialGenesis_spec (env : Env) (config : genesisConfig) (t : String) (upd silent : Bool) :
    ∃ g, (initialGenesis env config t upd silent).result = .ok g ∧
      g.Config = (defaultGenesisConfig env.now config).Config ∧
      (∀ e ∈ (initialGenesis env config t upd silent).events, e.isLog = true) ∧
      (silent = true → ∀ e ∈ (initialGenesis env config t upd silent).events, e = .readFile t) := by
  unfold initialGenesis existingGenesisConfigOrDefault
  cases upd
  · simp [Run.pure]
  · rcases hr : env.readFile t with e | bytes
    · cases silent <;> simp [Run.bind, Run.pure, Run.emit, Event.isLog]
    · rcases hu : env.unmarshalGenesis bytes with e | g
      · cases silent <;> simp [Run.bind, Run.pure, Run.emit, hu, Event.isLog]
      · simp [Run.bind, Run.pure, Run.emit, hu, Event.isLog]

theorem setEpoch_of_default (g : Genesis) (now : Int) (config : genesisConfig) (epoch : Nat)
    (h : g.Config = (defaultGenesisConfig now config).Config) :
    ∃ cc, setEpoch g epoch = some { g with Config := some cc } := by
  simp [setEpoch, h, defaultGenesisConfig]

/-- The shape of every run of `createGenesisConfig`: the initial document is
obtained, then the stake loop decides. -/
theorem createGenesisConfig_shape (env : Env) (config : genesisConfig) (t : String) (upd : Bool) :
    ∃ g0 cc, (initialGenesis env config t upd (t == "stdout")).result = .ok g0 ∧
      createGenesisConfig env config t upd =
        match stakeLoop config.InitialStakes config.Validators [] 0 with
        | .error f => ⟨(initialGenesis env config t upd (t == "stdout")).events, .error f⟩
        | .ok (initialStakes, initialStakeTotal) =>
          Run.bind ⟨(initialGenesis env config t upd (t == "stdout")).events, .ok ()⟩ fun _ =>
          Run.bind (match g0.Alloc with
            | some _ => Run.pure
                { g0 with ExtraData := createExtraData config.Validators, Config := some cc }
            | none =>
              freshAllocation env config
                { g0 with ExtraData := createExtraData config.Validators, Config := some cc }
                initialStakes initialStakeTotal (t == "stdout"))
          fun genesis => writeDocument env t genesis := by
  obtain ⟨g0, h0, hc, -, -⟩ := initialGenesis_spec env config t upd (t == "stdout")
  obtain ⟨cc, hcc⟩ := setEpoch_of_default
    { g0 with ExtraData := createExtraData config.Validators } env.now config
    config.ConsensusParams.EpochBlockInterval hc
  refine ⟨g0, cc, h0, ?_⟩
  unfold createGenesisConfig
  simp only [Run.bind_ok _ _ g0 h0, hcc]
  rcases stakeLoop config.InitialStakes config.Validators [] 0 with f | ⟨st, tot⟩
  · simp [Run.fail]
  · simp [Run.bind]

theorem engineCalls_of_isLog (events : List Event) (h : ∀ e ∈ events, e.isLog = true) :
    engineCalls events = [] := by
  unfold engineCalls
  rw [List.filter_eq_nil_iff]
  intro e he
  have := h e he
  cases e <;> simp_all [Event.isLog, Event.isEngine]

theorem writtenDocuments_of_isLog (events : List Event) (h : ∀ e ∈ events, e.isLog = true) :
    writtenDocuments events = [] := by
  unfold writtenDocuments
  rw [List.filterMap_eq_nil_iff]
  intro e he
  have := h e he
  cases e <;> simp_all [Event.isLog, Event.written]

theorem createGenesisConfig_stakeLoop_error (env : Env) (config : genesisConfig) (t : String)
    (upd : Bool) (f : Failure)
    (h : stakeLoop config.InitialStakes config.Validators [] 0 = .error f) :
    createGenesisConfig env config t upd =
      ⟨(initialGenesis env config t upd (t == "stdout")).events, .error f⟩ := by
  obtain ⟨g0, cc, -, hshape⟩ := createGenesisConfig_shape env config t upd
  rw [hshape, h]

/-- C2 (as amended): the error names the first validator without an initial
stake, when the stakes of the validators before it decode. -/
theorem createGenesisConfig_names_first_missing_validator (env : Env) (config : genesisConfig)
    (targetFile : String) (updateOnlyConfig : Bool) (pre post : List Address) (v : Address)
    (hvals : config.Validators = pre ++ v :: post)
    (hpre : ∀ w ∈ pre, ∃ raw n, mapGet config.InitialStakes w = some raw ∧ DecodeBig raw = .ok n)
    (hmiss : mapGet config.InitialStakes v = none) :
    (createGenesisConfig env config targetFile updateOnlyConfig).result
        = .error (.error ("initial stake is not found for validator: " ++ v.Hex)) ∧
      v.Hex.toList <:+: ("initial stake is not found for validator: " ++ v.Hex).toList := by
  constructor
  · have h := stakeLoop_first_missing config.InitialStakes pre post v hpre hmiss [] 0
    rw [← hvals] at h
    rw [createGenesisConfig_stakeLoop_error env config targetFile updateOnlyConfig _ h]
  · simp only [String.toList, String.data_append]
    exact (List.suffix_append _ _).isInfix

theorem createGenesisConfig_names_first_missing_validator_witness :
    (createGenesisConfig sampleEnv secondValidatorNoStake "genesis.json" true).result
        = .error (.error ("initial stake is not found for validator: " ++ (addressOfNat 2).Hex)) ∧
      (addressOfNat 2).Hex.toList
        <:+: ("initial stake is not found for validator: " ++ (addressOfNat 2).Hex).toList :=
  createGenesisConfig_names_first_missing_validator sampleEnv secondValidatorNoStake "genesis.json"
    true [addressOfNat 1] [] (addressOfNat 2) rfl
    (by
      intro w hw
      rw [List.mem_singleton] at hw
      subst hw
      exact ⟨"0x3635c9adc5dea00000", 1000000000000000000000, by decide, by decide⟩)
    (by decide)

/-- C2 (counterexample): with two validators without a stake the error names
the first one only; the hex form of the second is not in the message. -/
theorem createGenesisConfig_second_missing_validator_not_named :
    addressOfNat 2 ∈ twoValidatorsNoStake.Validators ∧
      mapGet twoValidatorsNoStake.InitialStakes (addressOfNat 2) = none ∧
      (createGenesisConfig sampleEnv twoValidatorsNoStake "genesis.json" false).result
        = .error (.error
            "initial stake is not found for validator: 0x0000000000000000000000000000000000000001") ∧
      ¬ (addressOfNat 2).Hex.toList <:+:
        "initial stake is not found for validator: 0x0000000000000000000000000000000000000001".toList := by
  refine ⟨by decide, by decide, by decide, by decide⟩

/-- C3: when a validator has no initial stake, the run ends with a returned
error, and it has caused no engine call and no write of a document; all it did
was read the existing file and print warnings on standard output (nothing at
all on the stream when the target is `stdout`). -/
theorem createGenesisConfig_missing_stake_before_effects (env : Env) (config : genesisConfig)
    (targetFile : String) (updateOnlyConfig : Bool) (v : Address) (hv : v ∈ config.Validators)
    (hmiss : mapGet config.InitialStakes v = none) :
    (∃ msg, (createGenesisConfig env config targetFile updateOnlyConfig).result
        = .error (.error msg)) ∧
      engineCalls (createGenesisConfig env config targetFile updateOnlyConfig).events = [] ∧
      writtenDocuments (createGenesisConfig env config targetFile updateOnlyConfig).events = [] ∧
      (targetFile = "stdout" →
        ∀ e ∈ (createGenesisConfig env config targetFile updateOnlyConfig).events,
          e = .readFile targetFile) := by
  obtain ⟨msg, hmsg⟩ := stakeLoop_missing config.InitialStakes config.Validators v hv hmiss [] 0
  rw [createGenesisConfig_stakeLoop_error env config targetFile updateOnlyConfig _ hmsg]
  obtain ⟨g, -, -, hlog, hsilent⟩ :=
    initialGenesis_spec env config targetFile updateOnlyConfig (targetFile == "stdout")
  refine ⟨⟨msg, rfl⟩, engineCalls_of_isLog _ hlog, writtenDocuments_of_isLog _ hlog, ?_⟩
  intro ht
  exact hsilent (by simp [ht])

theorem createGenesisConfig_missing_stake_before_effects_witness :
    (∃ msg, (createGenesisConfig sampleEnv twoValidatorsNoStake "stdout" true).result
        = .error (.error msg)) ∧
      engineCalls (createGenesisConfig sampleEnv twoValidatorsNoStake "stdout" true).events = [] ∧
      writtenDocuments (createGenesisConfig sampleEnv twoValidatorsNoStake "stdout" true).events = [] ∧
      ("stdout" = "stdout" →
        ∀ e ∈ (createGenesisConfig sampleEnv twoValidatorsNoStake "stdout" true).events,
          e = .readFile "stdout") :=
  createGenesisConfig_missing_stake_before_effects sampleEnv twoValidatorsNoStake "stdout" true
    (addressOfNat 2) (by decide) (by decide)

/-! ## Maps -/

theorem mapGet_mapSet {κ β : Type} [DecidableEq κ] (m : List (κ × β)) (k k' : κ) (v : β) :
    mapGet (mapSet m k v) k' = if k = k' then some v else mapGet m k' := by
  induction m with
  | nil => simp [mapSet, mapGet]
  | cons p rest ih =>
    obtain ⟨a, b⟩ := p
    by_cases hak : a = k
    · subst hak
      by_cases hk : a = k' <;> simp [mapSet, mapGet, hk]
    · by_cases hk : k = k'
      · subst hk
        simp [mapSet, mapGet, hak, ih]
      · by_cases hak' : a = k'
        · subst hak'
          simp [mapSet, mapGet, hak, hk]
        · simp [mapSet, mapGet, hak, hak', hk, ih]

theorem mapGet_mapSet_self {κ β : Type} [DecidableEq κ] (m : List (κ × β)) (k : κ) (v : β) :
    mapGet (mapSet m k v) k = some v := by
  simp [mapGet_mapSet]

theorem mapGet_mapSet_of_ne {κ β : Type} [DecidableEq κ] (m : List (κ × β)) (k k' : κ) (v : β)
    (h : k ≠ k') : mapGet (mapSet m k v) k' = mapGet m k' := by
  simp [mapGet_mapSet, h]

/-! ## The faucet loop -/

theorem faucetLoop_other (faucet : List (Address × String)) (alloc alloc' : GenesisAlloc)
    (h : faucetLoop faucet alloc = .ok alloc') (k : Address)
    (hk : k ∉ faucet.map Prod.fst) : mapGet alloc' k = mapGet alloc k := by
  induction faucet generalizing alloc with
  | nil => simp [faucetLoop] at h; rw [h]
  | cons p rest ih =>
    obtain ⟨key, value⟩ := p
    simp only [List.map_cons, List.mem_cons, not_or] at hk
    rcases hs : sliceFrom (goBytes value) 2 with e | digits
    · simp [faucetLoop, hs] at h
    · rcases hb : SetString16 digits with _ | balance
      · simp [faucetLoop, hs, hb] at h
      · simp only [faucetLoop, hs, hb] at h
        rw [ih _ h hk.2, mapGet_mapSet_of_ne _ _ _ _ (Ne.symm hk.1)]

theorem sliceFrom_ok (s : Bytes) (n : Nat) (t : Bytes) (h : sliceFrom s n = .ok t) :
    n ≤ s.length ∧ t = s.drop n := by
  unfold sliceFrom at h
  split at h
  · rename_i hle
    simp at h
    exact ⟨hle, h.symm⟩
  · simp at h

theorem faucetLoop_entry (faucet : List (Address × String)) (alloc alloc' : GenesisAlloc)
    (h : faucetLoop faucet alloc = .ok alloc') (hd : distinctKeys faucet) (k : Address)
    (s : String) (hks : (k, s) ∈ faucet) :
    ∃ b, 2 ≤ (goBytes s).length ∧ SetString16 ((goBytes s).drop 2) = some b ∧
      mapGet alloc' k = some { Code := [], Storage := [], Balance := some b, Nonce := 0 } := by
  induction faucet generalizing alloc with
  | nil => cases hks
  | cons p rest ih =>
    obtain ⟨key, value⟩ := p
    unfold distinctKeys at hd
    simp only [List.map_cons, List.nodup_cons] at hd
    rcases hs : sliceFrom (goBytes value) 2 with e | digits
    · simp [faucetLoop, hs] at h
    · rcases hb : SetString16 digits with _ | balance
      · simp [faucetLoop, hs, hb] at h
      · simp only [faucetLoop, hs, hb] at h
        rcases List.mem_cons.mp hks with heq | hrest
        · cases heq
          obtain ⟨hlen, hdig⟩ := sliceFrom_ok _ _ _ hs
          refine ⟨balance, hlen, by rw [← hdig]; exact hb, ?_⟩
          rw [faucetLoop_other rest _ _ h k hd.1, mapGet_mapSet_self]
        · exact ih _ h hd.2 hrest

/-! ## Deployments -/

theorem Run.bind_result_ok {α β : Type} {x : Run α} {f : α → Run β} {b : β}
    (h : (Run.bind x f).result = .ok b) :
    ∃ a, x.result = .ok a ∧ (f a).result = .ok b ∧
      (Run.bind x f).events = x.events ++ (f a).events := by
  rcases hx : x.result with e | a
  · rw [Run.bind_error x f e hx] at h
    simp at h
  · rw [Run.bind_ok x f a hx] at h ⊢
    exact ⟨a, rfl, h, rfl⟩

theorem Run.bind_events_forall {α β : Type} (p : Event → Prop) (x : Run α) (f : α → Run β)
    (hx : ∀ e ∈ x.events, p e) (hf : ∀ a, ∀ e ∈ (f a).events, p e) :
    ∀ e ∈ (Run.bind x f).events, p e := by
  intro e he
  rcases hr : x.result with err | a
  · rw [Run.bind_error x f err hr] at he
    exact hx e he
  · rw [Run.bind_ok x f a hr] at he
    rcases List.mem_append.mp he with h | h
    · exact hx e h
    · exact hf a e h

theorem reportFailure_written {α : Type} (data : Bytes) (err : String) :
    ∀ e ∈ (reportFailure data err : Run α).events, e.written = none := by
  intro e he
  unfold reportFailure at he
  split at he
  · simp [Run.fail] at he
  · simp only [printReason, List.mem_append, List.mem_map, List.mem_singleton] at he
    rcases he with ⟨c, -, rfl⟩ | rfl <;> rfl

theorem reportFailure_not_ok {α : Type} (data : Bytes) (err : String) (a : α) :
    (reportFailure data err : Run α).result ≠ .ok a := by
  unfold reportFailure
  split <;> simp [Run.fail]

theorem simulateSystemContract_written (env : Env) (genesis : Genesis) (a : Address)
    (raw ctor : Bytes) (balance : Option Int) :
    ∀ e ∈ (simulateSystemContract env genesis a raw ctor balance).events, e.written = none := by
  unfold simulateSystemContract
  split
  · simp [Run.fail]
  · split
    · simp [Run.fail]
    · split
      · simp [Run.fail]
      · apply Run.bind_events_forall
        · simp [Run.emit, Event.written]
        · intro _
          dsimp only
          split
          · exact reportFailure_written _ _
          · apply Run.bind_events_forall
            · simp [Run.emit, Event.written]
            · intro _
              dsimp only
              split
              · exact reportFailure_written _ _
              · simp [Run.pure]

theorem simulateSystemContract_ok (env : Env) (genesis genesis' : Genesis) (a : Address)
    (raw ctor : Bytes) (balance : Option Int)
    (h : (simulateSystemContract env genesis a raw ctor balance).result = .ok genesis') :
    ∃ artifact code, env.unmarshalArtifact raw = .ok artifact ∧
      hexutilDecode artifact.Bytecode = .ok code ∧
      (env.create genesis a (code ++ ctor) balance).err = none ∧
      (env.call genesis a (code ++ ctor) balance initSelector).err = none ∧
      genesis' = { genesis with Alloc := some (mapSet (genesis.Alloc.getD []) a
        { Code := (env.create genesis a (code ++ ctor) balance).ret
          Storage := readDirtyStorageFromState (env.create genesis a (code ++ ctor) balance)
          Balance := some 0
          Nonce := 0 }) } := by
  unfold simulateSystemContract at h
  rcases h1 : env.unmarshalArtifact raw with e | artifact
  · simp [h1, Run.fail] at h
  · rcases h2 : hexutilDecode artifact.Bytecode with e | code
    · simp [h1, h2, Run.fail] at h
    · rcases h3 : env.stateNew with _ | e
      · rcases h4 : (env.create genesis a (code ++ ctor) balance).err with _ | e
        · rcases h5 : (env.call genesis a (code ++ ctor) balance initSelector).err with _ | e
          · simp [h1, h2, h3, h4, h5, Run.bind, Run.emit, Run.pure] at h
            exact ⟨artifact, code, rfl, h2, h4, h5, h.symm⟩
          · simp [h1, h2, h3, h4, h5, Run.bind, Run.emit, reportFailure_not_ok] at h
        · simp [h1, h2, h3, h4, Run.bind, Run.emit, reportFailure_not_ok] at h
      · simp [h1, h2, h3, Run.fail] at h

theorem invokeConstructorOrPanic_ok (env : Env) (genesis genesis' : Genesis) (contract : Address)
    (raw : Bytes) (typeNames : List String) (params : List AbiValue) (silent : Bool)
    (balance : Option Int)
    (h : (invokeConstructorOrPanic env genesis contract raw typeNames params silent balance).result
      = .ok genesis') :
    ∃ encoded, env.pack typeNames params = .ok encoded ∧
      (simulateSystemContract env genesis contract raw (ctorBlob typeNames encoded) balance).result
        = .ok genesis' := by
  unfold invokeConstructorOrPanic at h
  rcases hp : env.pack typeNames params with e | encoded
  · simp [hp, Run.fail] at h
  · refine ⟨encoded, rfl, ?_⟩
    simp only [hp] at h
    obtain ⟨u, -, h2, -⟩ := Run.bind_result_ok h
    unfold ctorBlob
    generalize simulateSystemContract env genesis contract raw
      (packBytes (ctorSelector typeNames ++ encoded)) balance = r at h2 ⊢
    rcases hr : r.result with f | g
    · cases f <;> simp [hr] at h2
    · simp [hr] at h2
      rw [h2]

theorem invokeConstructorOrPanic_written (env : Env) (genesis : Genesis) (contract : Address)
    (raw : Bytes) (typeNames : List String) (params : List AbiValue) (silent : Bool)
    (balance : Option Int) :
    ∀ e ∈ (invokeConstructorOrPanic env genesis contract raw typeNames params silent balance).events,
      e.written = none := by
  unfold invokeConstructorOrPanic
  split
  · simp [Run.fail]
  · apply Run.bind_events_forall
    · cases silent <;> simp [Run.pure, Run.emit, Event.written]
    · intro _
      dsimp only
      have hs := simulateSystemContract_written env genesis contract raw
        (packBytes (ctorSelector typeNames ++ ‹Bytes›)) balance
      split
      · exact hs
      · exact hs

theorem invokeConstructorOrPanic_extends (env : Env) (genesis genesis' : Genesis)
    (contract : Address) (raw : Bytes) (typeNames : List String) (params : List AbiValue)
    (silent : Bool) (balance : Option Int)
    (h : (invokeConstructorOrPanic env genesis contract raw typeNames params silent balance).result
      = .ok genesis') :
    allocExtends [contract] genesis genesis' := by
  obtain ⟨encoded, -, hs⟩ := invokeConstructorOrPanic_ok _ _ _ _ _ _ _ _ _ h
  obtain ⟨artifact, code, -, -, -, -, hg⟩ := simulateSystemContract_ok _ _ _ _ _ _ _ hs
  refine ⟨_, hg, ?_⟩
  intro k hk
  rw [mapGet_mapSet] at hk
  by_cases hck : contract = k
  · exact Or.inr (by simp [hck])
  · simp only [hck, if_false] at hk
    exact Or.inl hk

theorem allocExtends_trans (s s' : List Address) (g g' g'' : Genesis)
    (h : allocExtends s g g') (h' : allocExtends s' g' g'') : allocExtends (s ++ s') g g'' := by
  obtain ⟨alloc, rfl, hk⟩ := h
  obtain ⟨alloc', rfl, hk'⟩ := h'
  refine ⟨alloc', rfl, ?_⟩
  intro k hne
  rcases hk' k hne with h1 | h1
  · rcases hk k (by simpa using h1) with h2 | h2
    · exact Or.inl h2
    · exact Or.inr (List.mem_append_left _ h2)
  · exact Or.inr (List.mem_append_right _ h1)

theorem deployContracts_extends (env : Env) (config : genesisConfig) (genesis genesis' : Genesis)
    (initialStakes : List Int) (initialStakeTotal : Int) (silent : Bool)
    (h : (deployContracts env config genesis initialStakes initialStakeTotal silent).result
      = .ok genesis') :
    allocExtends systemContracts genesis genesis' := by
  unfold deployContracts at h
  obtain ⟨g1, h1, h, -⟩ := Run.bind_result_ok h
  obtain ⟨g2, h2, h, -⟩ := Run.bind_result_ok h
  obtain ⟨g3, h3, h, -⟩ := Run.bind_result_ok h
  obtain ⟨g4, h4, h, -⟩ := Run.bind_result_ok h
  obtain ⟨g5, h5, h, -⟩ := Run.bind_result_ok h
  obtain ⟨g6, h6, h, -⟩ := Run.bind_result_ok h
  obtain ⟨g7, h7, h, -⟩ := Run.bind_result_ok h
  obtain ⟨g8, h8, h, -⟩ := Run.bind_result_ok h
  have e1 := invokeConstructorOrPanic_extends _ _ _ _ _ _ _ _ _ h1
  have e2 := invokeConstructorOrPanic_extends _ _ _ _ _ _ _ _ _ h2
  have e3 := invokeConstructorOrPanic_extends _ _ _ _ _ _ _ _ _ h3
  have e4 := invokeConstructorOrPanic_extends _ _ _ _ _ _ _ _ _ h4
  have e5 := invokeConstructorOrPanic_extends _ _ _ _ _ _ _ _ _ h5
  have e6 := invokeConstructorOrPanic_extends _ _ _ _ _ _ _ _ _ h6
  have e7 := invokeConstructorOrPanic_extends _ _ _ _ _ _ _ _ _ h7
  have e8 := invokeConstructorOrPanic_extends _ _ _ _ _ _ _ _ _ h8
  have e9 := invokeConstructorOrPanic_extends _ _ _ _ _ _ _ _ _ h
  exact allocExtends_trans _ _ _ _ _ (allocExtends_trans _ _ _ _ _ (allocExtends_trans _ _ _ _ _
    (allocExtends_trans _ _ _ _ _ (allocExtends_trans _ _ _ _ _ (allocExtends_trans _ _ _ _ _
    (allocExtends_trans _ _ _ _ _ (allocExtends_trans _ _ _ _ _ e1 e2) e3) e4) e5) e6) e7) e8) e9

theorem deployContracts_written (env : Env) (config : genesisConfig) (genesis : Genesis)
    (initialStakes : List Int) (initialStakeTotal : Int) (silent : Bool) :
    ∀ e ∈ (deployContracts env config genesis initialStakes initialStakeTotal silent).events,
      e.written = none := by
  unfold deployContracts
  repeat' first
    | exact invokeConstructorOrPanic_written _ _ _ _ _ _ _ _
    | (apply Run.bind_events_forall)
    | (intro _)

/-! ## The fresh build -/

theorem writtenDocuments_append (l l' : List Event) :
    writtenDocuments (l ++ l') = writtenDocuments l ++ writtenDocuments l' := by
  simp [writtenDocuments]

theorem writtenDocuments_of_written (l : List Event) (h : ∀ e ∈ l, e.written = none) :
    writtenDocuments l = [] := by
  unfold writtenDocuments
  rw [List.filterMap_eq_nil_iff]
  exact h

theorem writeDocument_ok (env : Env) (t : String) (g : Genesis)
    (h : (writeDocument env t g).result = .ok ()) :
    env.write t g = none ∧ (writeDocument env t g).events = [.write t g] := by
  unfold writeDocument at h ⊢
  rcases hw : env.write t g with _ | e
  · simp [Run.bind, Run.emit, Run.pure]
  · simp [hw, Run.bind, Run.emit, Run.fail] at h

theorem fundAccounts_ok (config : genesisConfig) (g g' : Genesis) (tot : Int)
    (h : fundAccounts config g tot = .ok g') :
    ∃ alloc alloc', g.Alloc = some alloc ∧
      faucetLoop config.Faucet
        (mapSet (mapSet alloc intermediarySystemAddress { Balance := some 0 }) stakingAddress
          { (mapGet (mapSet alloc intermediarySystemAddress { Balance := some 0 })
              stakingAddress).getD {} with Balance := some tot }) = .ok alloc' ∧
      g' = { g with Alloc := some alloc' } := by
  unfold fundAccounts at h
  rcases ha : g.Alloc with _ | alloc
  · simp [ha] at h
  · simp only [ha] at h
    split at h
    · simp at h
    · rename_i alloc' hf
      simp at h
      exact ⟨alloc, alloc', rfl, hf, h.symm⟩

theorem freshAllocation_ok (env : Env) (config : genesisConfig) (g gf : Genesis)
    (st : List Int) (tot : Int) (silent : Bool)
    (h : (freshAllocation env config g st tot silent).result = .ok gf) :
    ∃ gd, (deployContracts env config g st tot silent).result = .ok gd ∧
      fundAccounts config gd tot = .ok gf ∧
      (freshAllocation env config g st tot silent).events
        = (deployContracts env config g st tot silent).events := by
  unfold freshAllocation at h ⊢
  obtain ⟨gd, hdep, hfund, hev⟩ := Run.bind_result_ok h
  refine ⟨gd, hdep, ?_, ?_⟩
  · rcases hfa : fundAccounts config gd tot with f | gfund
    · simp [hfa, Run.fail] at hfund
    · simp [hfa, Run.pure] at hfund
      rw [hfund]
  · rw [hev]
    rcases hfa : fundAccounts config gd tot with f | gfund
    · simp [hfa, Run.fail] at hfund
    · simp [Run.pure]

/-- What a successful fresh build has done: the stakes were summed, the nine
contracts deployed into a map that holds only them, the accounts funded, and
exactly one document written, the funded one. -/
theorem createGenesisConfig_fresh_ok (env : Env) (config : genesisConfig) (t : String)
    (h : (createGenesisConfig env config t false).result = .ok ()) :
    ∃ (st : List Int) (tot : Int) (gd : Genesis) (alloc alloc' : GenesisAlloc),
      stakeLoop config.InitialStakes config.Validators [] 0 = .ok (st, tot) ∧
      gd.Alloc = some alloc ∧ (∀ k, mapGet alloc k ≠ none → k ∈ systemContracts) ∧
      faucetLoop config.Faucet
        (mapSet (mapSet alloc intermediarySystemAddress { Balance := some 0 }) stakingAddress
          { (mapGet (mapSet alloc intermediarySystemAddress { Balance := some 0 })
              stakingAddress).getD {} with Balance := some tot }) = .ok alloc' ∧
      writtenDocuments (createGenesisConfig env config t false).events
        = [{ gd with Alloc := some alloc' }] := by
  obtain ⟨g0, cc, h0, hshape⟩ := createGenesisConfig_shape env config t false
  have hg0 : g0 = defaultGenesisConfig env.now config := by
    simp [initialGenesis, Run.pure] at h0
    exact h0.symm
  have hev : (initialGenesis env config t false (t == "stdout")).events = [] := by
    simp [initialGenesis, Run.pure]
  have halloc : g0.Alloc = none := by rw [hg0]; rfl
  rw [hshape] at h ⊢
  rcases hst : stakeLoop config.InitialStakes config.Validators [] 0 with f | ⟨st, tot⟩
  · simp [hst] at h
  · simp only [hst, halloc, hev] at h ⊢
    obtain ⟨u, -, h, hev1⟩ := Run.bind_result_ok h
    obtain ⟨gf, hfresh, hw, hev2⟩ := Run.bind_result_ok h
    obtain ⟨gd, hdep, hfa, hev3⟩ := freshAllocation_ok _ _ _ _ _ _ _ hfresh
    obtain ⟨alloc, alloc', hga, hfl, hgf⟩ := fundAccounts_ok config gd gf tot hfa
    obtain ⟨hwnone, hwev⟩ := writeDocument_ok env t gf hw
    obtain ⟨alloc0, hgd, hkeys⟩ := deployContracts_extends _ _ _ _ _ _ _ hdep
    refine ⟨st, tot, gd, alloc, alloc', rfl, hga, ?_, hfl, ?_⟩
    · intro k hk
      rw [hgd] at hga
      simp at hga
      subst hga
      rcases hkeys k hk with h1 | h1
      · simp [mapGet] at h1
      · exact h1
    · rw [hev1, hev2, hev3, hwev]
      simp only [List.nil_append, writtenDocuments_append]
      rw [writtenDocuments_of_written _ (deployContracts_written _ _ _ _ _ _)]
      simp [writtenDocuments, Event.written, hgf]

/-! ## The allocations of a fresh build -/

theorem faucetLoop_member (faucet : List (Address × String)) (alloc alloc' : GenesisAlloc)
    (h : faucetLoop faucet alloc = .ok alloc') (k : Address) (hk : k ∈ faucet.map Prod.fst) :
    ∃ b, mapGet alloc' k = some { Code := [], Storage := [], Balance := some b, Nonce := 0 } := by
  induction faucet generalizing alloc with
  | nil => simp at hk
  | cons p rest ih =>
    obtain ⟨key, value⟩ := p
    rcases hs : sliceFrom (goBytes value) 2 with e | digits
    · simp [faucetLoop, hs] at h
    · rcases hb : SetString16 digits with _ | balance
      · simp [faucetLoop, hs, hb] at h
      · simp only [faucetLoop, hs, hb] at h
        by_cases hrest : k ∈ rest.map Prod.fst
        · exact ih _ h hrest
        · have hkey : k = key := by
            simp only [List.map_cons, List.mem_cons] at hk
            rcases hk with h1 | h1
            · exact h1
            · exact absurd h1 hrest
          subst hkey
          refine ⟨balance, ?_⟩
          rw [faucetLoop_other rest _ _ h k hrest, mapGet_mapSet_self]

theorem decodeNibble_sign (c : Byte) (d : Nat) (h : decodeNibble c = some d) :
    c.val ≠ 45 ∧ c.val ≠ 43 := by
  unfold decodeNibble at h
  constructor
  · intro hc
    simp [hc] at h
  · intro hc
    simp [hc] at h

theorem SetString16_of_hexValue (digits : Bytes) (n : Nat) (b : Int)
    (hn : hexValue 0 digits = some n) (hb : SetString16 digits = some b) : b = n := by
  cases digits with
  | nil => simp [SetString16] at hb
  | cons c rest =>
    rcases hc : decodeNibble c with _ | d
    · simp [hexValue, hc] at hn
    · obtain ⟨h45, h43⟩ := decodeNibble_sign c d hc
      simp [SetString16, h45, h43, hn] at hb
      exact hb.symm

theorem DecodeBig_hexValue (s : String) (n : Int) (h : DecodeBig s = .ok n) :
    ∃ m : Nat, hexValue 0 ((goBytes s).drop 2) = some m ∧ n = m := by
  unfold DecodeBig at h
  rcases hc : checkNumber (goBytes s) with e | raw
  · simp [hc] at h
  · have hraw : raw = (goBytes s).drop 2 := by
      unfold checkNumber at hc
      split at hc
      · simp at hc
      · split at hc
        · simp at hc
        · dsimp only at hc
          split at hc
          · simp at hc
          · split at hc
            · simp at hc
            · simp at hc
              exact hc.symm
    simp only [hc] at h
    split at h
    · simp at h
    · rcases hv : hexValue 0 raw with _ | m
      · simp [hv] at h
      · simp [hv] at h
        exact ⟨m, by rw [← hraw, hv], h.symm⟩

/-- C1 (counterexample): a faucet grant at the address of the Staking contract
replaces its entry; the build succeeds and the balance recorded there is the
grant of 10000 ether, not the 1000 ether of stakes. -/
theorem createGenesisConfig_staking_balance_overwritten :
    (createGenesisConfig sampleEnv faucetAtStaking "genesis.json" false).result = .ok () ∧
      (writtenDocuments (createGenesisConfig sampleEnv faucetAtStaking "genesis.json" false).events).map
          (fun doc => (entryOf doc stakingAddress).map (fun entry => entry.Balance))
        = [some (some 10000000000000000000000)] ∧
      faucetAtStaking.Validators.map (declaredStake faucetAtStaking)
        = [some 1000000000000000000000] := by
  refine ⟨by decide, by decide, by decide⟩

/-- C1 (as amended): after a successful fresh build of a profile whose faucet
map does not hold the Staking address, the one document written records for
the Staking address a balance equal to the sum of the decoded initial stakes of
the validators of the list. -/
theorem createGenesisConfig_staking_balance (env : Env) (config : genesisConfig)
    (targetFile : String)
    (hok : (createGenesisConfig env config targetFile false).result = .ok ())
    (hfaucet : stakingAddress ∉ config.Faucet.map Prod.fst) :
    ∃ (doc : Genesis) (stakes : List Int),
      writtenDocuments (createGenesisConfig env config targetFile false).events = [doc] ∧
      List.Forall₂ (fun v n => declaredStake config v = some n) config.Validators stakes ∧
      (entryOf doc stakingAddress).map (fun entry => entry.Balance) = some (some stakes.sum) := by
  obtain ⟨st, tot, gd, alloc, alloc', hst, -, -, hfl, hdoc⟩ :=
    createGenesisConfig_fresh_ok env config targetFile hok
  obtain ⟨ns, -, htot, hall⟩ := stakeLoop_ok _ _ _ _ _ _ hst
  refine ⟨_, ns, hdoc, ?_, ?_⟩
  · refine hall.imp ?_
    rintro v n ⟨raw, h1, h2⟩
    simp [declaredStake, h1, h2]
  · simp only [entryOf]
    rw [faucetLoop_other _ _ _ hfl _ hfaucet, mapGet_mapSet_self]
    simp [htot]

theorem createGenesisConfig_staking_balance_witness :
    ∃ (doc : Genesis) (stakes : List Int),
      writtenDocuments (createGenesisConfig sampleEnv faucetGrant "genesis.json" false).events = [doc] ∧
      List.Forall₂ (fun v n => declaredStake faucetGrant v = some n) faucetGrant.Validators stakes ∧
      (entryOf doc stakingAddress).map (fun entry => entry.Balance) = some (some stakes.sum) :=
  createGenesisConfig_staking_balance sampleEnv faucetGrant "genesis.json" (by decide) (by decide)

/-- The entry of a faucet address after a successful fresh build: no code, no
storage, nonce zero and the balance that `SetString` reads in base 16 from the
value without its first two characters, whatever these are; for a value that
`DecodeBig` accepts that balance is the number the value denotes. -/
theorem createGenesisConfig_faucet_entry (env : Env) (config : genesisConfig)
    (targetFile : String)
    (hok : (createGenesisConfig env config targetFile false).result = .ok ())
    (hkeys : distinctKeys config.Faucet) (key : Address) (value : String)
    (hmem : (key, value) ∈ config.Faucet) :
    ∃ (doc : Genesis) (balance : Int),
      writtenDocuments (createGenesisConfig env config targetFile false).events = [doc] ∧
      entryOf doc key = some { Code := [], Storage := [], Balance := some balance, Nonce := 0 } ∧
      SetString16 ((goBytes value).drop 2) = some balance ∧
      (∀ n : Nat, hexValue 0 ((goBytes value).drop 2) = some n → balance = n) ∧
      (∀ n : Int, DecodeBig value = .ok n → balance = n) := by
  obtain ⟨st, tot, gd, alloc, alloc', -, -, -, hfl, hdoc⟩ :=
    createGenesisConfig_fresh_ok env config targetFile hok
  obtain ⟨b, -, hb, hentry⟩ := faucetLoop_entry _ _ _ hfl hkeys key value hmem
  refine ⟨_, b, hdoc, by simpa [entryOf] using hentry, hb, ?_, ?_⟩
  · intro n hn
    exact SetString16_of_hexValue _ n b hn hb
  · intro n hn
    obtain ⟨m, hm, hnm⟩ := DecodeBig_hexValue value n hn
    rw [hnm]
    exact SetString16_of_hexValue _ m b hm hb

theorem createGenesisConfig_faucet_entry_witness :
    ∃ (doc : Genesis) (balance : Int),
      writtenDocuments (createGenesisConfig sampleEnv faucetGrant "genesis.json" false).events = [doc] ∧
      entryOf doc (addressOfNat 0xb891fe7b38f857f53a7b5529204c58d5c487280b)
        = some { Code := [], Storage := [], Balance := some balance, Nonce := 0 } ∧
      SetString16 ((goBytes "0x52b7d2dcc80cd2e4000000").drop 2) = some balance ∧
      (∀ n : Nat, hexValue 0 ((goBytes "0x52b7d2dcc80cd2e4000000").drop 2) = some n → balance = n) ∧
      (∀ n : Int, DecodeBig "0x52b7d2dcc80cd2e4000000" = .ok n → balance = n) :=
  createGenesisConfig_faucet_entry sampleEnv faucetGrant "genesis.json" (by decide) (by decide)
    (addressOfNat 0xb891fe7b38f857f53a7b5529204c58d5c487280b) "0x52b7d2dcc80cd2e4000000"
    (by decide)

/-- C6 (the code at the failing inputs): the faucet value `10ff` has no prefix;
the build succeeds and grants 255, the value of the digits `ff` left after the
first two characters are cut, not the 4351 the digits of the value denote. The
faucet value `0x-10` is granted as the balance -16. `DecodeBig`, which reads
the stakes, rejects both values. -/
theorem createGenesisConfig_faucet_balance_not_denoted :
    ((createGenesisConfig sampleEnv faucetNoPrefix "genesis.json" false).result = .ok () ∧
      (writtenDocuments (createGenesisConfig sampleEnv faucetNoPrefix "genesis.json" false).events).map
          (fun doc => entryOf doc (addressOfNat 0xb891fe7b38f857f53a7b5529204c58d5c487280b))
        = [some { Code := [], Storage := [], Balance := some 255, Nonce := 0 }] ∧
      hexValue 0 (goBytes "10ff") = some 4351 ∧
      DecodeBig "10ff" = .error "hex string without 0x prefix") ∧
    ((createGenesisConfig sampleEnv faucetSigned "genesis.json" false).result = .ok () ∧
      (writtenDocuments (createGenesisConfig sampleEnv faucetSigned "genesis.json" false).events).map
          (fun doc => entryOf doc (addressOfNat 0xb891fe7b38f857f53a7b5529204c58d5c487280b))
        = [some { Code := [], Storage := [], Balance := some (-16), Nonce := 0 }] ∧
      DecodeBig "0x-10" = .error "invalid hex string") := by
  refine ⟨⟨by decide, by decide, by decide, by decide⟩, ⟨by decide, by decide, by decide⟩⟩

/-- C7 (counterexample): the treasury address of the profile `treasuryAtZero`,
the zero address, has no entry in the document of the successful build. -/
theorem createGenesisConfig_treasury_without_entry :
    addressOfNat 0 ∈ treasuryAtZero.SystemTreasury.map Prod.fst ∧
      (createGenesisConfig sampleEnv treasuryAtZero "genesis.json" false).result = .ok () ∧
      (writtenDocuments (createGenesisConfig sampleEnv treasuryAtZero "genesis.json" false).events).map
          (fun doc => entryOf doc (addressOfNat 0)) = [none] := by
  refine ⟨by decide, by decide, by decide⟩

/-- C7 (as amended): after a successful fresh build an address of the treasury
share map has an entry in the document only if it is also a faucet address, a
system contract address or the intermediary system address; when it is a
faucet address its entry has empty code and nonce zero. -/
theorem createGenesisConfig_treasury_entry (env : Env) (config : genesisConfig)
    (targetFile : String)
    (hok : (createGenesisConfig env config targetFile false).result = .ok ())
    (a : Address) (_ha : a ∈ config.SystemTreasury.map Prod.fst) :
    ∃ doc : Genesis,
      writtenDocuments (createGenesisConfig env config targetFile false).events = [doc] ∧
      (a ∉ config.Faucet.map Prod.fst → a ∉ systemContracts → a ≠ intermediarySystemAddress →
        entryOf doc a = none) ∧
      (a ∈ config.Faucet.map Prod.fst →
        ∃ entry, entryOf doc a = some entry ∧ entry.Code = [] ∧ entry.Nonce = 0) := by
  obtain ⟨st, tot, gd, alloc, alloc', -, -, hsys, hfl, hdoc⟩ :=
    createGenesisConfig_fresh_ok env config targetFile hok
  refine ⟨_, hdoc, ?_, ?_⟩
  · intro hf hs hi
    simp only [entryOf]
    rw [faucetLoop_other _ _ _ hfl _ hf]
    have hst : stakingAddress ≠ a := by
      intro heq
      apply hs
      rw [← heq]
      simp [systemContracts]
    rw [mapGet_mapSet_of_ne _ _ _ _ hst, mapGet_mapSet_of_ne _ _ _ _ (Ne.symm hi)]
    by_contra hne
    exact hs (hsys a hne)
  · intro hf
    obtain ⟨b, hb⟩ := faucetLoop_member _ _ _ hfl a hf
    exact ⟨_, by simpa [entryOf] using hb, rfl, rfl⟩

theorem createGenesisConfig_treasury_entry_witness :
    ∃ doc : Genesis,
      writtenDocuments (createGenesisConfig sampleEnv treasuryAtZero "genesis.json" false).events
        = [doc] ∧
      (addressOfNat 0 ∉ treasuryAtZero.Faucet.map Prod.fst → addressOfNat 0 ∉ systemContracts →
        addressOfNat 0 ≠ intermediarySystemAddress → entryOf doc (addressOfNat 0) = none) ∧
      (addressOfNat 0 ∈ treasuryAtZero.Faucet.map Prod.fst →
        ∃ entry, entryOf doc (addressOfNat 0) = some entry ∧ entry.Code = [] ∧ entry.Nonce = 0) :=
  createGenesisConfig_treasury_entry sampleEnv treasuryAtZero "genesis.json" (by decide)
    (addressOfNat 0) (by decide)

/-- C8 (the code at the failing inputs): the faucet value `zz10` is accepted,
the build succeeds and grants 16, although `DecodeBig` rejects the value for
its prefix; the faucet value `0` ends the build with a panic, not with a
returned error. -/
theorem createGenesisConfig_malformed_faucet_values :
    ((createGenesisConfig sampleEnv faucetWrongPrefix "genesis.json" false).result = .ok () ∧
      (writtenDocuments (createGenesisConfig sampleEnv faucetWrongPrefix "genesis.json" false).events).map
          (fun doc => (entryOf doc (addressOfNat 0xb891fe7b38f857f53a7b5529204c58d5c487280b)).map
            (fun entry => entry.Balance)) = [some (some 16)] ∧
      DecodeBig "zz10" = .error "hex string without 0x prefix") ∧
    (createGenesisConfig sampleEnv faucetShortValue "genesis.json" false).result
      = .error (.panic "runtime error: slice bounds out of range [2:1]") := by
  refine ⟨⟨by decide, by decide, by decide⟩, by decide⟩

/-! ## The parameter-only update -/

theorem initialGenesis_update (env : Env) (config : genesisConfig) (t : String) (silent : Bool)
    (bytes : Bytes) (loaded : Genesis) (hr : env.readFile t = .ok bytes)
    (hu : env.unmarshalGenesis bytes = .ok loaded) :
    initialGenesis env config t true silent
      = ⟨[.readFile t], .ok { loaded with Config := (defaultGenesisConfig env.now config).Config }⟩ := by
  simp [initialGenesis, existingGenesisConfigOrDefault, hr, hu, Run.bind, Run.pure, Run.emit]

/-- The runs of the update path on a file that parses: the read, then either
the failure of the stake loop or the write of the loaded document with a new
`Config` and a new `ExtraData`. -/
theorem createGenesisConfig_update (env : Env) (config : genesisConfig) (t : String)
    (bytes : Bytes) (loaded : Genesis) (hr : env.readFile t = .ok bytes)
    (hu : env.unmarshalGenesis bytes = .ok loaded) :
    ∃ cc : ChainConfig, createGenesisConfig env config t true =
      match stakeLoop config.InitialStakes config.Validators [] 0 with
      | .error f => ⟨[.readFile t], .error f⟩
      | .ok _ =>
        ⟨[.readFile t,
          .write t { loaded with ExtraData := createExtraData config.Validators, Config := some cc }],
         match env.write t
           { loaded with ExtraData := createExtraData config.Validators, Config := some cc } with
         | some e => .error (.error e)
         | none => .ok ()⟩ := by
  obtain ⟨g0, cc, h0, hshape⟩ := createGenesisConfig_shape env config t true
  have hinit := initialGenesis_update env config t (t == "stdout") bytes loaded hr hu
  rw [hinit] at h0 hshape
  simp only [Except.ok.injEq] at h0
  subst h0
  refine ⟨cc, ?_⟩
  rw [hshape]
  rcases hst : stakeLoop config.InitialStakes config.Validators [] 0 with f | ⟨st, tot⟩
  · rfl
  · obtain ⟨alloc, ha⟩ := Option.ne_none_iff_exists'.mp (env.unmarshalGenesis_alloc bytes loaded hu)
    simp only [ha, Run.bind, Run.pure, writeDocument, Run.emit, List.nil_append,
      List.singleton_append]
    split <;> simp_all [Run.fail]

/-- C4: in the update path on an existing file that parses, every document
written has the allocation map of the loaded one, a successful run has written
exactly one document, and the engine was never called. -/
theorem createGenesisConfig_update_keeps_alloc (env : Env) (config : genesisConfig)
    (targetFile : String) (bytes : Bytes) (loaded : Genesis)
    (hread : env.readFile targetFile = .ok bytes)
    (hparse : env.unmarshalGenesis bytes = .ok loaded) :
    (∀ doc ∈ writtenDocuments (createGenesisConfig env config targetFile true).events,
        doc.Alloc = loaded.Alloc) ∧
      ((createGenesisConfig env config targetFile true).result = .ok () →
        ∃ doc, writtenDocuments (createGenesisConfig env config targetFile true).events = [doc]) ∧
      engineCalls (createGenesisConfig env config targetFile true).events = [] := by
  obtain ⟨cc, h⟩ := createGenesisConfig_update env config targetFile bytes loaded hread hparse
  rw [h]
  rcases stakeLoop config.InitialStakes config.Validators [] 0 with f | p
  · simp [writtenDocuments, engineCalls, Event.written, Event.isEngine]
  · simp [writtenDocuments, engineCalls, Event.written, Event.isEngine]

theorem createGenesisConfig_update_keeps_alloc_witness :
    (∀ doc ∈ writtenDocuments (createGenesisConfig updateEnv twoValidators "testnet.json" true).events,
        doc.Alloc = existingDocument.Alloc) ∧
      ((createGenesisConfig updateEnv twoValidators "testnet.json" true).result = .ok () →
        ∃ doc, writtenDocuments (createGenesisConfig updateEnv twoValidators "testnet.json" true).events
          = [doc]) ∧
      engineCalls (createGenesisConfig updateEnv twoValidators "testnet.json" true).events = [] :=
  createGenesisConfig_update_keeps_alloc updateEnv twoValidators "testnet.json" [] existingDocument
    rfl rfl

/-- C5 (counterexample): the document on disk was built for one validator, the
profile now lists two; the update succeeds and the extra data of the document
it writes is not the loaded one. -/
theorem createGenesisConfig_update_changes_extraData :
    updateEnv.unmarshalGenesis [] = .ok existingDocument ∧
      (createGenesisConfig updateEnv twoValidators "testnet.json" true).result = .ok () ∧
      (writtenDocuments (createGenesisConfig updateEnv twoValidators "testnet.json" true).events).map
          (fun doc => (doc.ExtraData.length, decide (doc.ExtraData = existingDocument.ExtraData)))
        = [(137, false)] ∧
      existingDocument.ExtraData.length = 117 := by
  refine ⟨rfl, by decide, by decide, by decide⟩

/-- C5 (as amended): in the update path on an existing file that parses, a
document written differs from the loaded one at most in `Config` and in
`ExtraData`, which is rebuilt from the validators of the profile; the ten
other fields are the loaded ones. -/
theorem createGenesisConfig_update_frame (env : Env) (config : genesisConfig)
    (targetFile : String) (bytes : Bytes) (loaded : Genesis)
    (hread : env.readFile targetFile = .ok bytes)
    (hparse : env.unmarshalGenesis bytes = .ok loaded) :
    (∀ doc ∈ writtenDocuments (createGenesisConfig env config targetFile true).events,
        doc.ExtraData = createExtraData config.Validators ∧
        doc.Nonce = loaded.Nonce ∧ doc.Timestamp = loaded.Timestamp ∧
        doc.GasLimit = loaded.GasLimit ∧ doc.Difficulty = loaded.Difficulty ∧
        doc.Mixhash = loaded.Mixhash ∧ doc.Coinbase = loaded.Coinbase ∧
        doc.Alloc = loaded.Alloc ∧ doc.Number = loaded.Number ∧
        doc.GasUsed = loaded.GasUsed ∧ doc.ParentHash = loaded.ParentHash) ∧
      ((createGenesisConfig env config targetFile true).result = .ok () →
        ∃ doc, writtenDocuments (createGenesisConfig env config targetFile true).events = [doc]) := by
  obtain ⟨cc, h⟩ := createGenesisConfig_update env config targetFile bytes loaded hread hparse
  rw [h]
  rcases stakeLoop config.InitialStakes config.Validators [] 0 with f | p
  · simp [writtenDocuments, Event.written]
  · simp [writtenDocuments, Event.written]

theorem createGenesisConfig_update_frame_witness :
    (∀ doc ∈ writtenDocuments (createGenesisConfig updateEnv twoValidators "testnet.json" true).events,
        doc.ExtraData = createExtraData twoValidators.Validators ∧
        doc.Nonce = existingDocument.Nonce ∧ doc.Timestamp = existingDocument.Timestamp ∧
        doc.GasLimit = existingDocument.GasLimit ∧ doc.Difficulty = existingDocument.Difficulty ∧
        doc.Mixhash = existingDocument.Mixhash ∧ doc.Coinbase = existingDocument.Coinbase ∧
        doc.Alloc = existingDocument.Alloc ∧ doc.Number = existingDocument.Number ∧
        doc.GasUsed = existingDocument.GasUsed ∧ doc.ParentHash = existingDocument.ParentHash) ∧
      ((createGenesisConfig updateEnv twoValidators "testnet.json" true).result = .ok () →
        ∃ doc, writtenDocuments (createGenesisConfig updateEnv twoValidators "testnet.json" true).events
          = [doc]) :=
  createGenesisConfig_update_frame updateEnv twoValidators "testnet.json" [] existingDocument
    rfl rfl

/-! ## The constructor blob -/

theorem Keccak.iota_length (rc : Nat) (a : List Nat) : (Keccak.iota rc a).length = a.length := by
  cases a <;> simp [Keccak.iota]

theorem Keccak.round_length (a : List Nat) (rc : Nat) : (Keccak.round a rc).length = 25 := by
  simp [Keccak.round, Keccak.iota_length, Keccak.chi]

theorem Keccak.foldl_round_length (rcs : List Nat) (a : List Nat) (h : a.length = 25) :
    (rcs.foldl Keccak.round a).length = 25 := by
  induction rcs generalizing a with
  | nil => simpa using h
  | cons rc rest ih => exact ih _ (Keccak.round_length a rc)

theorem Keccak.absorb_length (fuel : Nat) (a : List Nat) (data : Bytes) (h : a.length = 25) :
    (Keccak.absorb fuel a data).length = 25 := by
  induction fuel generalizing a data with
  | zero => simpa [Keccak.absorb] using h
  | succ n ih =>
    unfold Keccak.absorb
    split
    · exact h
    · apply ih
      unfold Keccak.absorbBlock Keccak.permute
      apply Keccak.foldl_round_length
      simp

theorem Keccak.squeeze_length (final : List Nat) (h : final.length = 25) :
    ((final.take 4).flatMap Keccak.bytesOfLane).length = 32 := by
  match final, h with
  | [a, b, c, d, e, f, g, h1, i, j, k, l, m, n, o, p, q, r, s, t, u, v, w, x, y], _ =>
    simp [Keccak.bytesOfLane]

theorem Keccak256_length (msg : Bytes) : (Keccak256 msg).length = 32 := by
  unfold Keccak256
  exact Keccak.squeeze_length _ (Keccak.absorb_length _ _ _ (by simp))

theorem ctorSelector_length (typeNames : List String) : (ctorSelector typeNames).length = 4 := by
  simp [ctorSelector, Keccak256_length]

theorem reportFailure_creates {α : Type} (data : Bytes) (err : String) (t : Address)
    (ic : Bytes) (b : Option Int) : Event.create t ic b ∉ (reportFailure data err : Run α).events := by
  unfold reportFailure
  split
  · simp [Run.fail]
  · simp [printReason]

theorem Run.mem_bind_events {α β : Type} {x : Run α} {f : α → Run β} {e : Event}
    (h : e ∈ (Run.bind x f).events) :
    e ∈ x.events ∨ ∃ a, x.result = .ok a ∧ e ∈ (f a).events := by
  rcases hx : x.result with err | a
  · rw [Run.bind_error x f err hx] at h
    exact Or.inl h
  · rw [Run.bind_ok x f a hx] at h
    rcases List.mem_append.mp h with h1 | h1
    · exact Or.inl h1
    · exact Or.inr ⟨a, rfl, h1⟩

/-- The deployments among the events of a simulation: at most one, of the
creation code of the artifact followed by the constructor data. -/
theorem simulateSystemContract_creates (env : Env) (genesis : Genesis) (a : Address)
    (raw ctor : Bytes) (balance : Option Int) (t : Address) (ic : Bytes) (b : Option Int)
    (h : Event.create t ic b ∈ (simulateSystemContract env genesis a raw ctor balance).events) :
    t = a ∧ b = balance ∧ ∃ artifact code, env.unmarshalArtifact raw = .ok artifact ∧
      hexutilDecode artifact.Bytecode = .ok code ∧ ic = code ++ ctor := by
  unfold simulateSystemContract at h
  rcases h1 : env.unmarshalArtifact raw with e | artifact
  · simp [h1, Run.fail] at h
  · rcases h2 : hexutilDecode artifact.Bytecode with e | code
    · simp [h1, h2, Run.fail] at h
    · rcases h3 : env.stateNew with _ | e
      · simp only [h1, h2, h3] at h
        rcases Run.mem_bind_events h with hhead | ⟨_, -, htail⟩
        · simp only [Run.emit, List.mem_singleton] at hhead
          cases hhead
          exact ⟨rfl, rfl, artifact, code, rfl, h2, rfl⟩
        · exfalso
          split at htail
          · exact reportFailure_creates _ _ _ _ _ htail
          · rcases Run.mem_bind_events htail with hcall | ⟨_, -, hrest⟩
            · simp [Run.emit] at hcall
            · split at hrest
              · exact reportFailure_creates _ _ _ _ _ hrest
              · simp [Run.pure] at hrest
      · simp [h1, h2, h3, Run.fail] at h

theorem simulateSystemContract_create_mem (env : Env) (genesis : Genesis) (a : Address)
    (raw ctor : Bytes) (balance : Option Int) (artifact : artifactData) (code : Bytes)
    (h1 : env.unmarshalArtifact raw = .ok artifact)
    (h2 : hexutilDecode artifact.Bytecode = .ok code) (h3 : env.stateNew = none) :
    Event.create a (code ++ ctor) balance
      ∈ (simulateSystemContract env genesis a raw ctor balance).events := by
  unfold simulateSystemContract
  simp only [h1, h2, h3]
  generalize (match (env.create genesis a (code ++ ctor) balance).err with
    | some e => (reportFailure (env.create genesis a (code ++ ctor) balance).ret e : Run Genesis)
    | none => _) = r
  rcases hres : r.result with f | g <;> simp [Run.bind, Run.emit, hres]

theorem invokeConstructorOrPanic_events (env : Env) (genesis : Genesis) (contract : Address)
    (raw : Bytes) (typeNames : List String) (params : List AbiValue) (silent : Bool)
    (balance : Option Int) (encoded : Bytes) (hp : env.pack typeNames params = .ok encoded) :
    ∃ log : List Event, (∀ e ∈ log, e.isLog = true) ∧
      (invokeConstructorOrPanic env genesis contract raw typeNames params silent balance).events
        = log ++ (simulateSystemContract env genesis contract raw
            (packBytes (ctorSelector typeNames ++ encoded)) balance).events ∧
      (invokeConstructorOrPanic env genesis contract raw typeNames params silent balance).result
        = match (simulateSystemContract env genesis contract raw
            (packBytes (ctorSelector typeNames ++ encoded)) balance).result with
          | .error (.error e) => .error (.panic e)
          | r => r := by
  unfold invokeConstructorOrPanic
  simp only [hp]
  generalize simulateSystemContract env genesis contract raw
    (packBytes (ctorSelector typeNames ++ encoded)) balance = r
  cases silent
  · refine ⟨[.printf (" + calling constructor: address=" ++ contract.Hex ++ " sig="
        ++ hexutilEncode (ctorSelector typeNames) ++ " ctor="
        ++ hexutilEncode (packBytes (ctorSelector typeNames ++ encoded)) ++ "\n")], ?_, ?_, ?_⟩
    · simp [Event.isLog]
    · rcases hr : r.result with f | g
      · cases f <;> simp [Run.bind, Run.emit, hr]
      · simp [Run.bind, Run.emit, hr]
    · rcases hr : r.result with f | g
      · cases f <;> simp [Run.bind, Run.emit, hr]
      · simp [Run.bind, Run.emit, hr]
  · refine ⟨[], ?_, ?_, ?_⟩
    · simp
    · rcases hr : r.result with f | g
      · cases f <;> simp [Run.bind, Run.pure, hr]
      · simp [Run.bind, Run.pure, hr]
    · rcases hr : r.result with f | g
      · cases f <;> simp [Run.bind, Run.pure, hr]
      · simp [Run.bind, Run.pure, hr]

/-- C9: when the parameters encode, the blob handed to the simulation is the
encoding as one `bytes` argument (offset word 32, length word, data, zero
padding to a multiple of 32) of the four-byte selector, taken from the
Keccak-256 hash of `ctor(` + types joined by `,` + `)`, followed by the encoded
parameters; every deployment the invocation causes has as init code the
creation code of the artifact followed by that blob, and there is one as soon
as the artifact decodes and the state can be created. -/
theorem invokeConstructorOrPanic_blob (env : Env) (genesis : Genesis) (contract : Address)
    (rawArtifact : Bytes) (typeNames : List String) (params : List AbiValue) (silent : Bool)
    (balance : Option Int) (encoded sel payload blob : Bytes)
    (hpack : env.pack typeNames params = .ok encoded)
    (hsel : sel = (Keccak256 (goBytes ("ctor(" ++ ",".intercalate typeNames ++ ")"))).take 4)
    (hpayload : payload = sel ++ encoded)
    (hblob : blob = word256 32 ++ word256 payload.length ++ payload
      ++ List.replicate ((payload.length + 31) / 32 * 32 - payload.length) 0) :
    sel.length = 4 ∧
      (∃ log : List Event, (∀ e ∈ log, e.isLog = true) ∧
        (invokeConstructorOrPanic env genesis contract rawArtifact typeNames params silent
            balance).events
          = log ++ (simulateSystemContract env genesis contract rawArtifact blob balance).events) ∧
      (∀ t ic b,
        Event.create t ic b ∈ (invokeConstructorOrPanic env genesis contract rawArtifact
          typeNames params silent balance).events →
        t = contract ∧ b = balance ∧ ∃ artifact code,
          env.unmarshalArtifact rawArtifact = .ok artifact ∧
          hexutilDecode artifact.Bytecode = .ok code ∧ ic = code ++ blob) ∧
      (∀ artifact code, env.unmarshalArtifact rawArtifact = .ok artifact →
        hexutilDecode artifact.Bytecode = .ok code → env.stateNew = none →
        Event.create contract (code ++ blob) balance
          ∈ (invokeConstructorOrPanic env genesis contract rawArtifact typeNames params silent
              balance).events) := by
  have hb : blob = packBytes (ctorSelector typeNames ++ encoded) := by
    rw [hblob, hpayload, hsel]
    rfl
  obtain ⟨log, hlog, hev, -⟩ := invokeConstructorOrPanic_events env genesis contract rawArtifact
    typeNames params silent balance encoded hpack
  rw [← hb] at hev
  refine ⟨?_, ⟨log, hlog, hev⟩, ?_, ?_⟩
  · rw [hsel]
    exact ctorSelector_length typeNames
  · intro t ic b hmem
    rw [hev] at hmem
    rcases List.mem_append.mp hmem with h1 | h1
    · have := hlog _ h1
      simp [Event.isLog] at this
    · exact simulateSystemContract_creates _ _ _ _ _ _ _ _ _ h1
  · intro artifact code h1 h2 h3
    rw [hev]
    exact List.mem_append_right _
      (simulateSystemContract_create_mem _ _ _ _ _ _ artifact code h1 h2 h3)

theorem invokeConstructorOrPanic_blob_witness :
    ((Keccak256 (goBytes ("ctor(" ++ ",".intercalate ["uint256"] ++ ")"))).take 4).length = 4 ∧
      (∃ log : List Event, (∀ e ∈ log, e.isLog = true) ∧
        (invokeConstructorOrPanic oneWordEnv existingDocument governanceAddress [] ["uint256"]
            [.bigInt (some 20)] true none).events
          = log ++ (simulateSystemContract oneWordEnv existingDocument governanceAddress []
              (word256 32 ++ word256 36
                ++ ((Keccak256 (goBytes ("ctor(" ++ ",".intercalate ["uint256"] ++ ")"))).take 4
                  ++ word256 20)
                ++ List.replicate 28 0) none).events) ∧
      (∀ t ic b,
        Event.create t ic b ∈ (invokeConstructorOrPanic oneWordEnv existingDocument
          governanceAddress [] ["uint256"] [.bigInt (some 20)] true none).events →
        t = governanceAddress ∧ b = none ∧ ∃ artifact code,
          oneWordEnv.unmarshalArtifact [] = .ok artifact ∧
          hexutilDecode artifact.Bytecode = .ok code ∧
          ic = code ++ (word256 32 ++ word256 36
                ++ ((Keccak256 (goBytes ("ctor(" ++ ",".intercalate ["uint256"] ++ ")"))).take 4
                  ++ word256 20)
                ++ List.replicate 28 0)) ∧
      (∀ artifact code, oneWordEnv.unmarshalArtifact [] = .ok artifact →
        hexutilDecode artifact.Bytecode = .ok code → oneWordEnv.stateNew = none →
        Event.create governanceAddress (code ++ (word256 32 ++ word256 36
                ++ ((Keccak256 (goBytes ("ctor(" ++ ",".intercalate ["uint256"] ++ ")"))).take 4
                  ++ word256 20)
                ++ List.replicate 28 0)) none
          ∈ (invokeConstructorOrPanic oneWordEnv existingDocument governanceAddress [] ["uint256"]
              [.bigInt (some 20)] true none).events) :=
  invokeConstructorOrPanic_blob oneWordEnv existingDocument governanceAddress [] ["uint256"]
    [.bigInt (some 20)] true none (word256 20)
    ((Keccak256 (goBytes ("ctor(" ++ ",".intercalate ["uint256"] ++ ")"))).take 4)
    ((Keccak256 (goBytes ("ctor(" ++ ",".intercalate ["uint256"] ++ ")"))).take 4 ++ word256 20)
    (word256 32 ++ word256 36
      ++ ((Keccak256 (goBytes ("ctor(" ++ ",".intercalate ["uint256"] ++ ")"))).take 4 ++ word256 20)
      ++ List.replicate 28 0)
    rfl rfl rfl
    (by
      have h : ((Keccak256 (goBytes ("ctor(" ++ ",".intercalate ["uint256"] ++ ")"))).take 4
          ++ word256 20).length = 36 := by
        simp [Keccak256_length, word256]
      rw [h])

/-- C10 (the code at the failing inputs): a deployment that fails with no
data, and an init call that fails with four bytes of data, do not make
`simulateSystemContract` return the error of the engine: the slice at offset 64
is out of range and the run ends with a panic. -/
theorem simulateSystemContract_short_failure_data :
    (simulateSystemContract outOfGasEnv existingDocument stakingAddress [] [] (some 0)).result
        = .error (.panic "runtime error: slice bounds out of range [64:0]") ∧
      (simulateSystemContract initRevertEnv existingDocument stakingAddress [] [] (some 0)).result
        = .error (.panic "runtime error: slice bounds out of range [64:4]") := by
  refine ⟨by decide, by decide⟩

/-! ## The printed revert reason -/

theorem printedText_append (l l' : List Event) :
    printedText (l ++ l') = printedText l ++ printedText l' := by
  simp [printedText]

theorem printedText_printReason (data : Bytes) :
    printedText (printReason data)
      = (data.filter fun c => 32 ≤ c.val ∧ c.val ≤ 127).map (fun c => Char.ofNat c.val) ++ ['\n'] := by
  unfold printReason
  rw [printedText_append]
  congr 1
  generalize (data.filter fun c => 32 ≤ c.val ∧ c.val ≤ 127) = l
  induction l with
  | nil => rfl
  | cons c rest ih =>
    simp only [List.map_cons, printedText, List.flatMap_cons] at ih ⊢
    rw [ih]
    rfl

theorem word256_length (n : Nat) : (word256 n).length = 32 := by
  simp [word256]

theorem errorStringPayload_drop (m : Bytes) :
    (errorStringPayload m).drop 64 = (word256 m.length).drop 28 ++ m
      ++ List.replicate ((m.length + 31) / 32 * 32 - m.length) 0 := by
  unfold errorStringPayload
  have h : ([0x08, 0xc3, 0x79, 0xa0] ++ word256 32 : Bytes).length = 36 := by
    simp [word256_length]
  have e : ([0x08, 0xc3, 0x79, 0xa0] ++ word256 32 ++ word256 m.length ++ m
      ++ List.replicate ((m.length + 31) / 32 * 32 - m.length) 0 : Bytes)
      = ([0x08, 0xc3, 0x79, 0xa0] ++ word256 32) ++ (word256 m.length ++ (m
      ++ List.replicate ((m.length + 31) / 32 * 32 - m.length) 0)) := by
    simp
  rw [e, List.drop_append_eq_append_drop, h]
  rw [List.drop_of_length_le (by rw [h]; decide), List.nil_append]
  rw [List.drop_append_of_le_length (by rw [word256_length]; decide)]
  simp

theorem errorStringPayload_length (m : Bytes) : 64 ≤ (errorStringPayload m).length := by
  simp [errorStringPayload, word256_length]
  omega

/-- The failure branch on an `Error(string)` payload with a printable message:
the error is returned and the message is in the text printed. -/
theorem reportFailure_errorString {α : Type} (m : Bytes) (err : String)
    (hm : ∀ c ∈ m, 32 ≤ c.val ∧ c.val ≤ 126) :
    (reportFailure (errorStringPayload m) err : Run α).result = .error (.error err) ∧
      (asciiString m).toList
        <:+: printedText (reportFailure (errorStringPayload m) err : Run α).events := by
  have hs : sliceFrom (errorStringPayload m) 64 = .ok ((errorStringPayload m).drop 64) := by
    simp [sliceFrom, errorStringPayload_length]
  unfold reportFailure
  rw [hs]
  refine ⟨rfl, ?_⟩
  show _ <:+: printedText (printReason _)
  rw [printedText_printReason, errorStringPayload_drop, List.filter_append, List.filter_append]
  have hfm : m.filter (fun c => decide (32 ≤ c.val ∧ c.val ≤ 127)) = m := by
    rw [List.filter_eq_self]
    intro c hc
    have := hm c hc
    simp only [decide_eq_true_eq]
    omega
  rw [hfm]
  simp only [List.map_append, asciiString, String.toList]
  exact ⟨((List.drop 28 (word256 m.length)).filter
      (fun c => decide (32 ≤ c.val ∧ c.val ≤ 127))).map (fun b => Char.ofNat b.val),
    ((List.replicate ((m.length + 31) / 32 * 32 - m.length) (0 : Byte)).filter
      (fun c => decide (32 ≤ c.val ∧ c.val ≤ 127))).map (fun b => Char.ofNat b.val) ++ ['\n'],
    by simp only [List.append_assoc]⟩

theorem Run.bind_emit {β : Type} (e : Event) (f : Unit → Run β) :
    Run.bind (Run.emit e) f = ⟨e :: (f ()).events, (f ()).result⟩ := by
  simp [Run.bind, Run.emit]

theorem simulateSystemContract_create_failure (env : Env) (genesis : Genesis) (a : Address)
    (raw ctor : Bytes) (balance : Option Int) (artifact : artifactData) (code : Bytes)
    (e : String) (h1 : env.unmarshalArtifact raw = .ok artifact)
    (h2 : hexutilDecode artifact.Bytecode = .ok code) (h3 : env.stateNew = none)
    (hc : (env.create genesis a (code ++ ctor) balance).err = some e) :
    simulateSystemContract env genesis a raw ctor balance
      = ⟨.create a (code ++ ctor) balance
          :: (reportFailure (env.create genesis a (code ++ ctor) balance).ret e : Run Genesis).events,
        (reportFailure (env.create genesis a (code ++ ctor) balance).ret e : Run Genesis).result⟩ := by
  unfold simulateSystemContract
  simp only [h1, h2, h3, Run.bind_emit, hc]

theorem simulateSystemContract_call_failure (env : Env) (genesis : Genesis) (a : Address)
    (raw ctor : Bytes) (balance : Option Int) (artifact : artifactData) (code : Bytes)
    (e : String) (h1 : env.unmarshalArtifact raw = .ok artifact)
    (h2 : hexutilDecode artifact.Bytecode = .ok code) (h3 : env.stateNew = none)
    (hc : (env.create genesis a (code ++ ctor) balance).err = none)
    (hi : (env.call genesis a (code ++ ctor) balance initSelector).err = some e) :
    simulateSystemContract env genesis a raw ctor balance
      = ⟨.create a (code ++ ctor) balance :: .call a initSelector
          :: (reportFailure (env.call genesis a (code ++ ctor) balance initSelector).ret e
              : Run Genesis).events,
        (reportFailure (env.call genesis a (code ++ ctor) balance initSelector).ret e
          : Run Genesis).result⟩ := by
  unfold simulateSystemContract
  simp only [h1, h2, h3, Run.bind_emit, hc, hi]

theorem printedText_cons_create (t : Address) (ic : Bytes) (b : Option Int) (l : List Event) :
    printedText (.create t ic b :: l) = printedText l := by
  simp [printedText]

theorem printedText_cons_call (t : Address) (d : Bytes) (l : List Event) :
    printedText (.call t d :: l) = printedText l := by
  simp [printedText]

/-- C11: when the deployment, or after it the init call, fails with an
`Error(string)` payload whose message is printable ASCII (bytes `32..126`),
`simulateSystemContract` returns the error of the engine and the text it has
printed contains the message as a contiguous run of characters. -/
theorem simulateSystemContract_prints_revert_reason (env : Env) (genesis : Genesis)
    (systemContract : Address) (rawArtifact ctor : Bytes) (balance : Option Int)
    (artifact : artifactData) (code m : Bytes) (err : String)
    (hartifact : env.unmarshalArtifact rawArtifact = .ok artifact)
    (hcode : hexutilDecode artifact.Bytecode = .ok code) (hstate : env.stateNew = none)
    (hm : ∀ c ∈ m, 32 ≤ c.val ∧ c.val ≤ 126)
    (hfail :
      ((env.create genesis systemContract (code ++ ctor) balance).err = some err ∧
        (env.create genesis systemContract (code ++ ctor) balance).ret = errorStringPayload m) ∨
      ((env.create genesis systemContract (code ++ ctor) balance).err = none ∧
        (env.call genesis systemContract (code ++ ctor) balance initSelector).err = some err ∧
        (env.call genesis systemContract (code ++ ctor) balance initSelector).ret
          = errorStringPayload m)) :
    (simulateSystemContract env genesis systemContract rawArtifact ctor balance).result
        = .error (.error err) ∧
      (asciiString m).toList <:+: printedText
        (simulateSystemContract env genesis systemContract rawArtifact ctor balance).events := by
  rcases hfail with ⟨hc, hret⟩ | ⟨hc, hi, hret⟩
  · rw [simulateSystemContract_create_failure env genesis systemContract rawArtifact ctor balance
      artifact code err hartifact hcode hstate hc, hret]
    simp only [printedText_cons_create]
    exact reportFailure_errorString m err hm
  · rw [simulateSystemContract_call_failure env genesis systemContract rawArtifact ctor balance
      artifact code err hartifact hcode hstate hc hi, hret]
    simp only [printedText_cons_create, printedText_cons_call]
    exact reportFailure_errorString m err hm

theorem simulateSystemContract_prints_revert_reason_witness :
    (simulateSystemContract revertingEnv existingDocument stakingAddress [] [] (some 0)).result
        = .error (.error "execution reverted") ∧
      (asciiString (goBytes "Staking: only owner")).toList <:+: printedText
        (simulateSystemContract revertingEnv existingDocument stakingAddress [] [] (some 0)).events :=
  simulateSystemContract_prints_revert_reason revertingEnv existingDocument stakingAddress [] []
    (some 0) { Bytecode := "0x6080", DeployedBytecode := "0x60" } [0x60, 0x80]
    (goBytes "Staking: only owner") "execution reverted" rfl (by decide) rfl (by decide)
    (Or.inl ⟨rfl, rfl⟩)

/-! ## The fallback of the update path -/

theorem existingGenesisConfigOrDefault_fallback (env : Env) (config : genesisConfig)
    (file : String) (silent : Bool)
    (h : (∃ e, env.readFile file = .error e) ∨
      (∃ bytes e, env.readFile file = .ok bytes ∧ env.unmarshalGenesis bytes = .error e)) :
    ∃ log : List Event, (∀ e ∈ log, e.isLog = true) ∧
      (silent = false → ∃ text, Event.printf text ∈ log) ∧
      existingGenesisConfigOrDefault env config file silent
        = ⟨log, .ok (defaultGenesisConfig env.now config, false)⟩ := by
  unfold existingGenesisConfigOrDefault
  rcases h with ⟨e, hr⟩ | ⟨bytes, e, hr, hu⟩
  · cases silent
    · exact ⟨[.readFile file, .printf ("WARN: failed to find existing genesis config (" ++ file
        ++ "), re-creating")], by simp [Event.isLog], by simp,
        by simp [hr, Run.bind, Run.emit, Run.pure]⟩
    · exact ⟨[.readFile file], by simp [Event.isLog], by simp,
        by simp [hr, Run.bind, Run.emit, Run.pure]⟩
  · cases silent
    · exact ⟨[.readFile file, .printf ("ERR: failed to parse existing genesis config (" ++ file
        ++ "), re-creating: " ++ e)], by simp [Event.isLog], by simp,
        by simp [hr, hu, Run.bind, Run.emit, Run.pure]⟩
    · exact ⟨[.readFile file], by simp [Event.isLog], by simp,
        by simp [hr, hu, Run.bind, Run.emit, Run.pure]⟩

theorem engineCalls_append (l l' : List Event) :
    engineCalls (l ++ l') = engineCalls l ++ engineCalls l' := by
  simp [engineCalls]

/-- C12: when the existing file cannot be read or does not parse,
`existingGenesisConfigOrDefault` returns the default document with the flag
false, with a warning on standard output unless silenced, and the update-only
build then runs as the fresh build does: the same result, the same engine calls
and the same documents written, after the events of the failed load. -/
theorem createGenesisConfig_update_falls_back (env : Env) (config : genesisConfig)
    (targetFile : String)
    (hload : (∃ e, env.readFile targetFile = .error e) ∨
      (∃ bytes e, env.readFile targetFile = .ok bytes ∧ env.unmarshalGenesis bytes = .error e)) :
    (∀ silent, (existingGenesisConfigOrDefault env config targetFile silent).result
        = .ok (defaultGenesisConfig env.now config, false)) ∧
      (∀ silent, silent = false →
        ∃ text, Event.printf text
          ∈ (existingGenesisConfigOrDefault env config targetFile silent).events) ∧
      (createGenesisConfig env config targetFile true).result
        = (createGenesisConfig env config targetFile false).result ∧
      writtenDocuments (createGenesisConfig env config targetFile true).events
        = writtenDocuments (createGenesisConfig env config targetFile false).events ∧
      engineCalls (createGenesisConfig env config targetFile true).events
        = engineCalls (createGenesisConfig env config targetFile false).events ∧
      ∃ log : List Event, (∀ e ∈ log, e.isLog = true) ∧
        (createGenesisConfig env config targetFile true).events
          = log ++ (createGenesisConfig env config targetFile false).events := by
  have key : ∃ log : List Event, (∀ e ∈ log, e.isLog = true) ∧
      (createGenesisConfig env config targetFile true).events
        = log ++ (createGenesisConfig env config targetFile false).events ∧
      (createGenesisConfig env config targetFile true).result
        = (createGenesisConfig env config targetFile false).result := by
    obtain ⟨log, hlog, -, hex⟩ := existingGenesisConfigOrDefault_fallback env config targetFile
      (targetFile == "stdout") hload
    refine ⟨log, hlog, ?_, ?_⟩
    · unfold createGenesisConfig initialGenesis
      simp only [if_true, Bool.false_eq_true, if_false, hex]
      simp [Run.bind, Run.pure]
    · unfold createGenesisConfig initialGenesis
      simp only [if_true, Bool.false_eq_true, if_false, hex]
      simp [Run.bind, Run.pure]
  obtain ⟨log, hlog, hev, hres⟩ := key
  refine ⟨?_, ?_, hres, ?_, ?_, ⟨log, hlog, hev⟩⟩
  · intro silent
    obtain ⟨l, -, -, hex⟩ := existingGenesisConfigOrDefault_fallback env config targetFile silent hload
    rw [hex]
  · intro silent hs
    obtain ⟨l, -, hp, hex⟩ := existingGenesisConfigOrDefault_fallback env config targetFile silent hload
    rw [hex]
    exact hp hs
  · rw [hev, writtenDocuments_append, writtenDocuments_of_isLog log hlog, List.nil_append]
  · rw [hev, engineCalls_append, engineCalls_of_isLog log hlog, List.nil_append]

theorem createGenesisConfig_update_falls_back_witness :
    (∀ silent, (existingGenesisConfigOrDefault unparseableEnv oneValidator "testnet.json" silent).result
        = .ok (defaultGenesisConfig unparseableEnv.now oneValidator, false)) ∧
      (∀ silent, silent = false →
        ∃ text, Event.printf text
          ∈ (existingGenesisConfigOrDefault unparseableEnv oneValidator "testnet.json" silent).events) ∧
      (createGenesisConfig unparseableEnv oneValidator "testnet.json" true).result
        = (createGenesisConfig unparseableEnv oneValidator "testnet.json" false).result ∧
      writtenDocuments (createGenesisConfig unparseableEnv oneValidator "testnet.json" true).events
        = writtenDocuments (createGenesisConfig unparseableEnv oneValidator "testnet.json" false).events ∧
      engineCalls (createGenesisConfig unparseableEnv oneValidator "testnet.json" true).events
        = engineCalls (createGenesisConfig unparseableEnv oneValidator "testnet.json" false).events ∧
      ∃ log : List Event, (∀ e ∈ log, e.isLog = true) ∧
        (createGenesisConfig unparseableEnv oneValidator "testnet.json" true).events
          = log ++ (createGenesisConfig unparseableEnv oneValidator "testnet.json" false).events :=
  createGenesisConfig_update_falls_back unparseableEnv oneValidator "testnet.json"
    (Or.inr ⟨[0x7b], "unexpected end of JSON input", rfl, rfl⟩)

/-! ## The entry a simulation records -/

theorem simulateSystemContract_succeeds (env : Env) (genesis : Genesis) (a : Address)
    (raw ctor : Bytes) (balance : Option Int) (artifact : artifactData) (code : Bytes)
    (h1 : env.unmarshalArtifact raw = .ok artifact)
    (h2 : hexutilDecode artifact.Bytecode = .ok code) (h3 : env.stateNew = none)
    (hc : (env.create genesis a (code ++ ctor) balance).err = none)
    (hi : (env.call genesis a (code ++ ctor) balance initSelector).err = none) :
    (simulateSystemContract env genesis a raw ctor balance).result
      = .ok { genesis with Alloc := some (mapSet (genesis.Alloc.getD []) a
        { Code := (env.create genesis a (code ++ ctor) balance).ret
          Storage := readDirtyStorageFromState (env.create genesis a (code ++ ctor) balance)
          Balance := some 0
          Nonce := 0 }) } := by
  unfold simulateSystemContract
  simp only [h1, h2, h3, Run.bind_emit, hc, hi, Run.pure]

/-- C13 (counterexample): the Staking contract is deployed with 1000 ether
pre-funded; the simulation succeeds and the entry it records has balance 0. -/
theorem simulateSystemContract_records_zero_balance :
    (match (simulateSystemContract sampleEnv (defaultGenesisConfig 1700000000 oneValidator)
        stakingAddress [] [] (some 1000000000000000000000)).result with
      | .ok genesis => (entryOf genesis stakingAddress).map fun entry => entry.Balance
      | .error _ => none) = some (some 0) := by
  decide

/-- C13 (as amended): on success the entry at the target address has as code
the runtime bytecode returned by the deployment, as storage the slots written
during the deployment, balance zero whatever amount was pre-funded, and nonce
zero; the other entries and the other fields of the document are unchanged. -/
theorem simulateSystemContract_merges_entry (env : Env) (genesis genesis' : Genesis)
    (systemContract : Address) (rawArtifact ctor : Bytes) (balance : Option Int)
    (hok : (simulateSystemContract env genesis systemContract rawArtifact ctor balance).result
      = .ok genesis') :
    ∃ artifact code, env.unmarshalArtifact rawArtifact = .ok artifact ∧
      hexutilDecode artifact.Bytecode = .ok code ∧
      entryOf genesis' systemContract = some
        { Code := (env.create genesis systemContract (code ++ ctor) balance).ret
          Storage := (env.create genesis systemContract (code ++ ctor) balance).dirtyStorage
          Balance := some 0
          Nonce := 0 } ∧
      (∀ other, other ≠ systemContract → entryOf genesis' other = entryOf genesis other) ∧
      genesis' = { genesis with Alloc := genesis'.Alloc } := by
  obtain ⟨artifact, code, h1, h2, -, -, hg⟩ := simulateSystemContract_ok _ _ _ _ _ _ _ hok
  refine ⟨artifact, code, h1, h2, ?_, ?_, ?_⟩
  · rw [hg]
    simp [entryOf, mapGet_mapSet_self, readDirtyStorageFromState]
  · intro other hne
    rw [hg]
    simp only [entryOf]
    rw [mapGet_mapSet_of_ne _ _ _ _ (Ne.symm hne)]
    cases genesis.Alloc <;> simp [mapGet]
  · rw [hg]

theorem simulateSystemContract_merges_entry_witness :
    ∃ artifact code, sampleEnv.unmarshalArtifact [] = .ok artifact ∧
      hexutilDecode artifact.Bytecode = .ok code ∧
      entryOf { existingDocument with Alloc := some (mapSet (existingDocument.Alloc.getD [])
          governanceAddress { Code := [0x60], Storage := [], Balance := some 0, Nonce := 0 }) }
        governanceAddress = some
        { Code := (sampleEnv.create existingDocument governanceAddress (code ++ []) none).ret
          Storage := (sampleEnv.create existingDocument governanceAddress (code ++ []) none).dirtyStorage
          Balance := some 0
          Nonce := 0 } ∧
      (∀ other, other ≠ governanceAddress →
        entryOf { existingDocument with Alloc := some (mapSet (existingDocument.Alloc.getD [])
          governanceAddress { Code := [0x60], Storage := [], Balance := some 0, Nonce := 0 }) } other
          = entryOf existingDocument other) ∧
      ({ existingDocument with Alloc := some (mapSet (existingDocument.Alloc.getD [])
          governanceAddress { Code := [0x60], Storage := [], Balance := some 0, Nonce := 0 }) }
          : Genesis)
        = { existingDocument with Alloc := some (mapSet (existingDocument.Alloc.getD [])
          governanceAddress { Code := [0x60], Storage := [], Balance := some 0, Nonce := 0 }) } :=
  simulateSystemContract_merges_entry sampleEnv existingDocument _ governanceAddress [] [] none
    (by decide)

/-- C19: the entry recorded for a system contract is the one taken after the
deployment: its code and storage are those of the deployment result, and a
simulation whose init call succeeds with any other return data and any other
effect on the storage records the same document. -/
theorem simulateSystemContract_entry_before_init (env : Env) (genesis genesis' : Genesis)
    (systemContract : Address) (rawArtifact ctor : Bytes) (balance : Option Int)
    (hok : (simulateSystemContract env genesis systemContract rawArtifact ctor balance).result
      = .ok genesis') :
    ∃ artifact code, env.unmarshalArtifact rawArtifact = .ok artifact ∧
      hexutilDecode artifact.Bytecode = .ok code ∧
      entryOf genesis' systemContract = some
        { Code := (env.create genesis systemContract (code ++ ctor) balance).ret
          Storage := (env.create genesis systemContract (code ++ ctor) balance).dirtyStorage
          Balance := some 0
          Nonce := 0 } ∧
      ∀ init : Genesis → Address → Bytes → Option Int → Bytes → CallResult,
        (init genesis systemContract (code ++ ctor) balance initSelector).err = none →
        (simulateSystemContract { env with call := init } genesis systemContract rawArtifact ctor
          balance).result = .ok genesis' := by
  obtain ⟨artifact, code, h1, h2, hc, -, hg⟩ := simulateSystemContract_ok _ _ _ _ _ _ _ hok
  obtain ⟨h3⟩ : PLift (env.stateNew = none) := by
    constructor
    rcases hs : env.stateNew with _ | e
    · rfl
    · unfold simulateSystemContract at hok
      simp [h1, h2, hs, Run.fail] at hok
  refine ⟨artifact, code, h1, h2, ?_, ?_⟩
  · rw [hg]
    simp [entryOf, mapGet_mapSet_self, readDirtyStorageFromState]
  · intro init hinit
    rw [simulateSystemContract_succeeds { env with call := init } genesis systemContract
      rawArtifact ctor balance artifact code h1 h2 h3 hc hinit, hg]

theorem simulateSystemContract_entry_before_init_witness :
    ∃ artifact code, initWritesEnv.unmarshalArtifact [] = .ok artifact ∧
      hexutilDecode artifact.Bytecode = .ok code ∧
      entryOf { existingDocument with Alloc := some (mapSet (existingDocument.Alloc.getD [])
          governanceAddress { Code := [0x60], Storage := [(1, 7)], Balance := some 0, Nonce := 0 }) }
        governanceAddress = some
        { Code := (initWritesEnv.create existingDocument governanceAddress (code ++ []) none).ret
          Storage :=
            (initWritesEnv.create existingDocument governanceAddress (code ++ []) none).dirtyStorage
          Balance := some 0
          Nonce := 0 } ∧
      ∀ init : Genesis → Address → Bytes → Option Int → Bytes → CallResult,
        (init existingDocument governanceAddress (code ++ []) none initSelector).err = none →
        (simulateSystemContract { initWritesEnv with call := init } existingDocument
          governanceAddress [] [] none).result
          = .ok { existingDocument with Alloc := some (mapSet (existingDocument.Alloc.getD [])
            governanceAddress
            { Code := [0x60], Storage := [(1, 7)], Balance := some 0, Nonce := 0 }) } :=
  simulateSystemContract_entry_before_init initWritesEnv existingDocument _ governanceAddress [] []
    none (by decide)

/-! ## The built-in profiles -/

/-- The literals the profiles hand to `MustDecodeBig` all decode. -/
theorem profile_literals_decode :
    ∀ s ∈ ["0xde0b6b3a7640000", "0x1bc16d674ec800002", "0x3635c9adc5dea00000",
        "0x84595161401484A000000", "0x56BC75E2D63100000"],
      ∃ n, DecodeBig s = .ok n ∧ MustDecodeBig s = n := by
  intro s hs
  simp only [List.mem_cons, List.mem_singleton, List.not_mem_nil, or_false] at hs
  rcases hs with rfl | rfl | rfl | rfl | rfl
  · exact ⟨1000000000000000000, by decide, by decide⟩
  · exact ⟨32000000000000000002, by decide, by decide⟩
  · exact ⟨1000000000000000000000, by decide, by decide⟩
  · exact ⟨10000000000000000000000000, by decide, by decide⟩
  · exact ⟨100000000000000000000, by decide, by decide⟩

theorem stakeLoop_total (stakes : List (Address × String)) (vs : List Address)
    (h : ∀ v ∈ vs, ∃ raw n, mapGet stakes v = some raw ∧ DecodeBig raw = .ok n)
    (acc : List Int) (tot : Int) :
    ∃ stakesOut total, stakeLoop stakes vs acc tot = .ok (stakesOut, total) := by
  induction vs generalizing acc tot with
  | nil => exact ⟨acc, tot, rfl⟩
  | cons w rest ih =>
    obtain ⟨raw, n, h1, h2⟩ := h w (List.mem_cons_self _ _)
    simp only [stakeLoop, h1, h2]
    exact ih (fun u hu => h u (List.mem_cons_of_mem _ hu)) _ _

theorem stakesDeclared_spec (config : genesisConfig) (h : stakesDeclared config = true) :
    ∀ v ∈ config.Validators,
      ∃ raw n, mapGet config.InitialStakes v = some raw ∧ DecodeBig raw = .ok n := by
  intro v hv
  unfold stakesDeclared at h
  rw [List.all_eq_true] at h
  have hs := h v hv
  unfold declaredStake at hs
  rcases h1 : mapGet config.InitialStakes v with _ | raw
  · simp [h1] at hs
  · rcases h2 : DecodeBig raw with e | n
    · simp [h1, h2] at hs
    · exact ⟨raw, n, rfl, h2⟩

theorem localNetConfig_stakesDeclared (start₁ start₂ : Int) :
    stakesDeclared (localNetConfig start₁ start₂) = true := by
  have h : stakesDeclared (localNetConfig 0 0) = true := by decide
  exact h

/-- C15: in each of the five built-in profiles every validator of the list has
an entry in the initial-stakes map that `DecodeBig` accepts, and the stake loop
of `createGenesisConfig` ends without an error on it. -/
theorem builtin_profiles_stakes_declared (start₁ start₂ : Int) :
    ∀ config ∈ [localNetConfig start₁ start₂, devNetConfig, testNetConfig, spicyConfig,
        mainNetConfig],
      (∀ v ∈ config.Validators,
        ∃ raw n, mapGet config.InitialStakes v = some raw ∧ DecodeBig raw = .ok n) ∧
      ∃ stakes total,
        stakeLoop config.InitialStakes config.Validators [] 0 = .ok (stakes, total) := by
  have key : ∀ config : genesisConfig, stakesDeclared config = true →
      (∀ v ∈ config.Validators,
        ∃ raw n, mapGet config.InitialStakes v = some raw ∧ DecodeBig raw = .ok n) ∧
      ∃ stakes total,
        stakeLoop config.InitialStakes config.Validators [] 0 = .ok (stakes, total) := by
    intro config h
    exact ⟨stakesDeclared_spec config h,
      stakeLoop_total _ _ (stakesDeclared_spec config h) [] 0⟩
  intro config hmem
  simp only [List.mem_cons, List.mem_singleton, List.not_mem_nil, or_false] at hmem
  rcases hmem with rfl | rfl | rfl | rfl | rfl
  · exact key _ (localNetConfig_stakesDeclared start₁ start₂)
  · exact key _ (by decide)
  · exact key _ (by decide)
  · exact key _ (by decide)
  · exact key _ (by decide)

theorem builtin_profiles_stakes_declared_witness :
    mainNetConfig ∈ [localNetConfig 1700000000 1700000000, devNetConfig, testNetConfig,
        spicyConfig, mainNetConfig] ∧
      (∀ v ∈ mainNetConfig.Validators,
        ∃ raw n, mapGet mainNetConfig.InitialStakes v = some raw ∧ DecodeBig raw = .ok n) ∧
      ∃ stakes total,
        stakeLoop mainNetConfig.InitialStakes mainNetConfig.Validators [] 0 = .ok (stakes, total) :=
  ⟨by simp, builtin_profiles_stakes_declared 1700000000 1700000000 mainNetConfig (by simp)⟩

/-- C14 (counterexample): the main network profile leaves both times unset;
the chain configuration built at clock reading 1700000000 carries 0 for both,
while the timestamp of the same document is the clock reading. -/
theorem defaultGenesisConfig_mainNet_dragon8 :
    mainNetConfig.Forks.Dragon8Time = 0 ∧ mainNetConfig.Forks.Dragon8FixTime = 0 ∧
      (defaultGenesisConfig 1700000000 mainNetConfig).Config.map
          (fun c => (c.Dragon8Time, c.Dragon8FixTime)) = some (some 0, some 0) ∧
      (defaultGenesisConfig 1700000000 mainNetConfig).Timestamp = 1700000000 := by
  refine ⟨by decide, by decide, by decide, by decide⟩

/-- C14 (as amended): for a profile that leaves `Dragon8Time` and
`Dragon8FixTime` unset, the chain configuration built by `defaultGenesisConfig`
carries 0 for both, whatever the clock reads; the clock reading goes to the
timestamp of the document. -/
theorem defaultGenesisConfig_unset_dragon8 (now : Int) (config : genesisConfig)
    (htime : config.Forks.Dragon8Time = 0) (hfix : config.Forks.Dragon8FixTime = 0) :
    ∃ chainConfig, (defaultGenesisConfig now config).Config = some chainConfig ∧
      chainConfig.Dragon8Time = some 0 ∧ chainConfig.Dragon8FixTime = some 0 ∧
      (defaultGenesisConfig now config).Timestamp = (now % 2 ^ 64).toNat := by
  refine ⟨_, rfl, ?_, ?_, rfl⟩
  · simp [htime]
  · simp [hfix]

theorem defaultGenesisConfig_unset_dragon8_witness :
    ∃ chainConfig, (defaultGenesisConfig 1700000000 spicyConfig).Config = some chainConfig ∧
      chainConfig.Dragon8Time = some 0 ∧ chainConfig.Dragon8FixTime = some 0 ∧
      (defaultGenesisConfig 1700000000 spicyConfig).Timestamp = ((1700000000 : Int) % 2 ^ 64).toNat :=
  defaultGenesisConfig_unset_dragon8 1700000000 spicyConfig (by decide) (by decide)

/-- C16 (the constants of the code): the voting period of the main network
profile is 271600 blocks, which at 3 seconds a block is 814800 seconds and not
the 604800 seconds of 7 days; 7 epochs of 28800 blocks are 201600 blocks. -/
theorem mainNetConfig_votingPeriod :
    mainNetConfig.VotingPeriod = 271600 ∧
      ((defaultGenesisConfig 0 mainNetConfig).Config.bind fun c => c.Parlia.map fun p => p.Period)
        = some 3 ∧
      mainNetConfig.VotingPeriod * 3 = 814800 ∧
      mainNetConfig.VotingPeriod * 3 ≠ 7 * 86400 ∧
      mainNetConfig.ConsensusParams.EpochBlockInterval * 3 = 86400 ∧
      7 * mainNetConfig.ConsensusParams.EpochBlockInterval = 201600 ∧
      mainNetConfig.VotingPeriod ≠ 7 * (mainNetConfig.ConsensusParams.EpochBlockInterval : Int) := by
  refine ⟨by decide, by decide, by decide, by decide, by decide, by decide, by decide⟩

/-- C18 (the constants of the code): the minimum staking amount of the local
profile is 32000000000000000002 wei, not the 10^18 wei of one ether that the
minimum validator stake of the line before it is. -/
theorem localNetConfig_minStakingAmount (start₁ start₂ : Int) :
    (localNetConfig start₁ start₂).ConsensusParams.MinStakingAmount
        = some 32000000000000000002 ∧
      DecodeBig "0x1bc16d674ec800002" = .ok 32000000000000000002 ∧
      (32000000000000000002 : Int) ≠ 10 ^ 18 ∧
      (localNetConfig start₁ start₂).ConsensusParams.MinValidatorStakeAmount = some (10 ^ 18) := by
  have h : (localNetConfig 0 0).ConsensusParams.MinStakingAmount = some 32000000000000000002 ∧
      DecodeBig "0x1bc16d674ec800002" = .ok 32000000000000000002 ∧
      (32000000000000000002 : Int) ≠ 10 ^ 18 ∧
      (localNetConfig 0 0).ConsensusParams.MinValidatorStakeAmount = some (10 ^ 18) := by
    refine ⟨by decide, by decide, by decide, by decide⟩
  exact h

/-! ## The commission rate -/

theorem Run.mem_bind_events_left {α β : Type} (x : Run α) (f : α → Run β) (e : Event)
    (h : e ∈ x.events) : e ∈ (Run.bind x f).events := by
  rcases hx : x.result with err | a
  · rw [Run.bind_error x f err hx]
    exact h
  · rw [Run.bind_ok x f a hx]
    exact List.mem_append_left _ h

/-- C20: the Staking constructor is deployed with the encoding of the
validators, the stakes and the commission rate reduced modulo 2^16; the reduced
rate is below 2^16 and it is the configured rate exactly when that lies in
`0..65535`. -/
theorem deployContracts_commission_rate (env : Env) (config : genesisConfig) (genesis : Genesis)
    (initialStakes : List Int) (initialStakeTotal : Int) (silent : Bool)
    (artifact : artifactData) (code encoded : Bytes)
    (hpack : env.pack ["address[]", "uint256[]", "uint16"]
      [.addresses config.Validators, .bigInts initialStakes,
       .uint16 (config.CommissionRate % 2 ^ 16).toNat] = .ok encoded)
    (hartifact : env.unmarshalArtifact env.artifacts.staking = .ok artifact)
    (hcode : hexutilDecode artifact.Bytecode = .ok code) (hstate : env.stateNew = none) :
    Event.create stakingAddress
        (code ++ packBytes (ctorSelector ["address[]", "uint256[]", "uint16"] ++ encoded))
        (some initialStakeTotal)
      ∈ (deployContracts env config genesis initialStakes initialStakeTotal silent).events ∧
    (config.CommissionRate % 2 ^ 16).toNat < 2 ^ 16 ∧
    (((config.CommissionRate % 2 ^ 16).toNat : Int) = config.CommissionRate ↔
      0 ≤ config.CommissionRate ∧ config.CommissionRate ≤ 65535) := by
  refine ⟨?_, ?_, ?_⟩
  · unfold deployContracts
    apply Run.mem_bind_events_left
    obtain ⟨log, -, hev, -⟩ := invokeConstructorOrPanic_events env genesis stakingAddress
      env.artifacts.staking ["address[]", "uint256[]", "uint16"]
      [.addresses config.Validators, .bigInts initialStakes,
       .uint16 (config.CommissionRate % 2 ^ 16).toNat] silent (some initialStakeTotal) encoded hpack
    rw [hev]
    exact List.mem_append_right _
      (simulateSystemContract_create_mem _ _ _ _ _ _ artifact code hartifact hcode hstate)
  · omega
  · omega

theorem deployContracts_commission_rate_witness :
    Event.create stakingAddress
        ([0x60, 0x80] ++ packBytes (ctorSelector ["address[]", "uint256[]", "uint16"] ++ []))
        (some 1000000000000000000000)
      ∈ (deployContracts sampleEnv commissionOverflow
          existingDocument [1000000000000000000000] 1000000000000000000000 true).events ∧
    (commissionOverflow.CommissionRate % 2 ^ 16).toNat
      < 2 ^ 16 ∧
    (((commissionOverflow.CommissionRate % 2 ^ 16).toNat
        : Int) = commissionOverflow.CommissionRate ↔
      0 ≤ commissionOverflow.CommissionRate ∧
      commissionOverflow.CommissionRate ≤ 65535) :=
  deployContracts_commission_rate sampleEnv commissionOverflow
    existingDocument [1000000000000000000000] 1000000000000000000000 true
    { Bytecode := "0x6080", DeployedBytecode := "0x60" } [0x60, 0x80] [] rfl rfl (by decide) rfl

/-! ## The extra data -/

theorem Address.bytes_length (a : Address) : a.bytes.length = 20 := by
  simp [Address.bytes]

theorem goCopy_fits (dst src : Bytes) (off : Nat) (h : off + src.length ≤ dst.length) :
    goCopy dst off src = dst.take off ++ src ++ dst.drop (off + src.length) := by
  unfold goCopy
  have hmin : min src.length (dst.length - off) = src.length := by omega
  simp only [hmin, List.take_length]

theorem goCopy_length (dst src : Bytes) (off : Nat) (h : off + src.length ≤ dst.length) :
    (goCopy dst off src).length = dst.length := by
  rw [goCopy_fits dst src off h]
  simp
  omega

/-- The loop writes the addresses one after the other from offset `32 + 20 i`
and leaves the rest of the slice as it is. -/
theorem createExtraDataLoop_eq (vs : List Address) (i : Nat) (extra : Bytes)
    (h : 32 + 20 * (i + vs.length) ≤ extra.length) :
    createExtraDataLoop i vs extra
      = extra.take (32 + 20 * i) ++ vs.flatMap Address.bytes
        ++ extra.drop (32 + 20 * (i + vs.length)) := by
  induction vs generalizing i extra with
  | nil => simp [createExtraDataLoop]
  | cons v rest ih =>
    have hlen : v.bytes.length = 20 := Address.bytes_length v
    simp only [List.length_cons] at h
    have hfit : 32 + 20 * i + v.bytes.length ≤ extra.length := by omega
    unfold createExtraDataLoop
    rw [ih (i + 1) _ (by rw [goCopy_length _ _ _ hfit]; omega), goCopy_fits _ _ _ hfit, hlen]
    have htake : (extra.take (32 + 20 * i)).length = 32 + 20 * i := by
      rw [List.length_take]; omega
    have hpre : (extra.take (32 + 20 * i) ++ v.bytes).length = 32 + 20 * (i + 1) := by
      rw [List.length_append, htake, hlen]; ring
    have e1 : (extra.take (32 + 20 * i) ++ v.bytes ++ extra.drop (32 + 20 * i + 20)).take
        (32 + 20 * (i + 1)) = extra.take (32 + 20 * i) ++ v.bytes := by
      rw [← hpre, List.take_left']
      rfl
    have e2 : (extra.take (32 + 20 * i) ++ v.bytes ++ extra.drop (32 + 20 * i + 20)).drop
        (32 + 20 * (i + 1 + rest.length)) = extra.drop (32 + 20 * (i + (rest.length + 1))) := by
      have hsplit : 32 + 20 * (i + 1 + rest.length)
          = (extra.take (32 + 20 * i) ++ v.bytes).length + 20 * rest.length := by
        rw [hpre]; ring
      rw [hsplit, List.drop_append, List.drop_drop]
      congr 1
      ring
    rw [e1, e2]
    simp [List.flatMap_cons, List.append_assoc]

theorem createExtraData_eq (validators : List Address) :
    createExtraData validators
      = List.replicate 32 0 ++ validators.flatMap Address.bytes ++ List.replicate 65 0 := by
  unfold createExtraData
  rw [createExtraDataLoop_eq _ _ _ (by simp)]
  have h1 : min (32 + 20 * 0) (32 + 20 * validators.length + 65) = 32 := by omega
  have h2 : 32 + 20 * validators.length + 65 - (32 + 20 * (0 + validators.length)) = 65 := by
    omega
  rw [List.take_replicate, List.drop_replicate, h1, h2]

theorem flatMap_bytes_length (vs : List Address) :
    (vs.flatMap Address.bytes).length = 20 * vs.length := by
  induction vs with
  | nil => rfl
  | cons v rest ih =>
    rw [List.flatMap_cons, List.length_append, ih, Address.bytes_length, List.length_cons]
    ring

theorem flatMap_bytes_slice (vs : List Address) (i : Nat) (h : i < vs.length) :
    ((vs.flatMap Address.bytes).drop (20 * i)).take 20 = (vs.get ⟨i, h⟩).bytes := by
  induction vs generalizing i with
  | nil => simp at h
  | cons v rest ih =>
    rw [List.flatMap_cons]
    cases i with
    | zero =>
      simp only [Nat.mul_zero, List.drop_zero, List.get_cons_zero]
      rw [List.take_append_of_le_length (by rw [Address.bytes_length])]
      rw [List.take_of_length_le (by rw [Address.bytes_length])]
      rfl
    | succ j =>
      have hj : j < rest.length := by simpa using h
      have hsplit : 20 * (j + 1) = v.bytes.length + 20 * j := by
        rw [Address.bytes_length]; ring
      rw [hsplit, List.drop_append]
      exact ih j hj

/-- C17: for a list of `n` validators `createExtraData` returns
`32 + 20 n + 65` bytes; the twenty bytes from offset `32 + 20 i` are the `i`-th
address of the list, the first 32 bytes and the last 65 bytes are zero. -/
theorem createExtraData_layout (validators : List Address) :
    (createExtraData validators).length = 32 + 20 * validators.length + 65 ∧
      (∀ (i : Nat) (h : i < validators.length),
        ((createExtraData validators).drop (32 + 20 * i)).take 20
          = (validators.get ⟨i, h⟩).bytes) ∧
      (createExtraData validators).take 32 = List.replicate 32 0 ∧
      (createExtraData validators).drop (32 + 20 * validators.length) = List.replicate 65 0 := by
  rw [createExtraData_eq]
  have hz : (List.replicate 32 (0 : Byte)).length = 32 := List.length_replicate 32 0
  refine ⟨?_, ?_, ?_, ?_⟩
  · rw [List.length_append, List.length_append, hz, flatMap_bytes_length, List.length_replicate]
  · intro i h
    rw [List.append_assoc]
    have hsplit : 32 + 20 * i = (List.replicate 32 (0 : Byte)).length + 20 * i := by rw [hz]
    rw [hsplit, List.drop_append]
    have hle : 20 ≤ ((validators.flatMap Address.bytes).drop (20 * i)).length := by
      rw [List.length_drop, flatMap_bytes_length]
      omega
    rw [List.drop_append_of_le_length (by rw [flatMap_bytes_length]; omega)]
    rw [List.take_append_of_le_length hle]
    exact flatMap_bytes_slice validators i h
  · rw [List.append_assoc, List.take_left' hz]
  · have hsplit : 32 + 20 * validators.length
        = (List.replicate 32 (0 : Byte) ++ validators.flatMap Address.bytes).length := by
      rw [List.length_append, hz, flatMap_bytes_length]
    rw [hsplit, List.drop_left]

end CreateGenesis
